import Mathlib

/-!
AcksenButton: a shallow embedding of the debounced button state machine

The definitions below follow `src/src/AcksenButton.cpp` and `src/src/AcksenButton.h`
(Acksen Button Library v1.3.0) function by function.

Conventions of the embedding.

* `unsigned long` values are natural numbers; the width of the type is the
  parameter `w`, and every `unsigned long` subtraction and addition of the source
  is written with an explicit reduction modulo `2 ^ w` (`wsub`, `wadd`).
* `uint8_t uiButtonOperationMode` is a natural number compared with the four
  `ACKSEN_BUTTON_MODE_*` constants of the header.
* The two platform primitives are inputs of each operation: `raw` is the value
  of `digitalRead(uiButtonPin)` and `now` the value of `millis()`.  One call of
  an operation sees one clock value: all reads of `millis()` inside one call
  return the same `now`.
* A member function that returns a `bool` and mutates the object becomes a
  function returning the pair (returned value, object after the call).
-/

/-- Wrapping `unsigned long` subtraction `a - b` on `w` bits. -/
def wsub (w a b : Nat) : Nat := (a + (2 ^ w - b % 2 ^ w)) % 2 ^ w

/-- Wrapping `unsigned long` addition `a + b` on `w` bits. -/
def wadd (w a b : Nat) : Nat := (a + b) % 2 ^ w

/-- Header constant `ACKSEN_BUTTON_MODE_NORMAL`. -/
@[reducible] def ACKSEN_BUTTON_MODE_NORMAL : Nat := 0
/-- Header constant `ACKSEN_BUTTON_MODE_LONGPRESS`. -/
@[reducible] def ACKSEN_BUTTON_MODE_LONGPRESS : Nat := 1
/-- Header constant `ACKSEN_BUTTON_MODE_REPEAT`. -/
@[reducible] def ACKSEN_BUTTON_MODE_REPEAT : Nat := 2
/-- Header constant `ACKSEN_BUTTON_MODE_ACCELERATE`. -/
@[reducible] def ACKSEN_BUTTON_MODE_ACCELERATE : Nat := 3

/-- Header constant `DEFAULT_LONG_PRESS_INTERVAL`. -/
@[reducible] def DEFAULT_LONG_PRESS_INTERVAL : Nat := 2000
/-- Header constant `DEFAULT_REPEAT_PRESS_INTERVAL`. -/
@[reducible] def DEFAULT_REPEAT_PRESS_INTERVAL : Nat := 500
/-- Header constant `DEFAULT_REPEAT_INITIAL_OFFSET_INTERVAL`. -/
@[reducible] def DEFAULT_REPEAT_INITIAL_OFFSET_INTERVAL : Nat := 1500
/-- Header constant `DEFAULT_ACCELERATION_INITIAL_OFFSET_INTERVAL`. -/
@[reducible] def DEFAULT_ACCELERATION_INITIAL_OFFSET_INTERVAL : Nat := 3000
/-- Header constant `DEFAULT_ACCELERATION_PRESSES_INTERVAL`. -/
@[reducible] def DEFAULT_ACCELERATION_PRESSES_INTERVAL : Nat := 100

/-- The data members of `class AcksenButton` (header, `protected:` section),
with the names of the source. -/
structure AcksenButton where
  uiButtonOperationMode : Nat
  ulLastStatusUpdate_MS : Nat
  ulDebounceInterval_MS : Nat
  ulLongPressInterval_MS : Nat
  bDebouncedButtonState : Bool
  bStateChangeRecorded : Bool
  bLongPressRecorded : Bool
  bLongPressProcessed : Bool
  ulRepeatPressesInterval_MS : Nat
  ulRepeatInitialOffsetDelay_MS : Nat
  ulAccelerationInitialOffsetDelay_MS : Nat
  ulAccelerationPressesInterval_MS : Nat
  ulRepeatPressesPeriodEnd : Nat
  ulButtonOperationStart : Nat
  uiButtonPin : Nat
  deriving DecidableEq, Repr

namespace AcksenButton

/-- `AcksenButton::setDebounceInterval` (cpp lines 74-77). -/
def setDebounceInterval (s : AcksenButton) (ulDebounceInterval_MS : Nat) : AcksenButton :=
  { s with ulDebounceInterval_MS := ulDebounceInterval_MS }

/-- `AcksenButton::setLongPressInterval` (cpp lines 79-82). -/
def setLongPressInterval (s : AcksenButton) (ulLongPressInterval_MS : Nat) : AcksenButton :=
  { s with ulLongPressInterval_MS := ulLongPressInterval_MS }

/-- `AcksenButton::setRepeatPressesInterval` (cpp lines 84-87). -/
def setRepeatPressesInterval (s : AcksenButton) (ulRepeatPressesInterval_MS : Nat) :
    AcksenButton :=
  { s with ulRepeatPressesInterval_MS := ulRepeatPressesInterval_MS }

/-- `AcksenButton::setRepeatInitialOffsetDelay` (cpp lines 89-92). -/
def setRepeatInitialOffsetDelay (s : AcksenButton) (ulRepeatInitialOffsetDelay_MS : Nat) :
    AcksenButton :=
  { s with ulRepeatInitialOffsetDelay_MS := ulRepeatInitialOffsetDelay_MS }

/-- `AcksenButton::setAccelerationPressesInterval` (cpp lines 94-97). -/
def setAccelerationPressesInterval (s : AcksenButton)
    (ulAccelerationPressesInterval_MS : Nat) : AcksenButton :=
  { s with ulAccelerationPressesInterval_MS := ulAccelerationPressesInterval_MS }

/-- `AcksenButton::setAccelerationInitialOffsetDelay` (cpp lines 99-102). -/
def setAccelerationInitialOffsetDelay (s : AcksenButton)
    (ulAccelerationInitialOffsetDelay_MS : Nat) : AcksenButton :=
  { s with ulAccelerationInitialOffsetDelay_MS := ulAccelerationInitialOffsetDelay_MS }

/-- `AcksenButton::setButtonOperatingMode` (cpp lines 104-107). -/
def setButtonOperatingMode (s : AcksenButton) (uiButtonOperationMode : Nat) : AcksenButton :=
  { s with uiButtonOperationMode := uiButtonOperationMode }

/-- The constructor `AcksenButton::AcksenButton` (cpp lines 51-72).  `raw` is the
value of `digitalRead(uiButtonPin)` and `now` the value of `millis()` read by
the constructor; `pinMode` only configures the pin, so `_uiButtonInputMode`
leaves no trace in the object.  The members with a default member initialiser
in the header start from their `DEFAULT_*` constant.  The constructor assigns
nothing to `bStateChangeRecorded`, `ulRepeatPressesPeriodEnd` and
`ulButtonOperationStart`, and the header gives them no initialiser: their
indeterminate initial values are the parameters `junkLatch`, `junkPeriodEnd`
and `junkStart`. -/
def new (uiButtonPin uiButtonOperationMode ulDebounceInterval_MS _uiButtonInputMode : Nat)
    (raw : Bool) (now : Nat) (junkLatch : Bool) (junkPeriodEnd junkStart : Nat) :
    AcksenButton :=
  let s0 : AcksenButton :=
    { uiButtonOperationMode := uiButtonOperationMode
      ulLastStatusUpdate_MS := now
      ulDebounceInterval_MS := 0
      ulLongPressInterval_MS := DEFAULT_LONG_PRESS_INTERVAL
      bDebouncedButtonState := raw
      bStateChangeRecorded := junkLatch
      bLongPressRecorded := false
      bLongPressProcessed := false
      ulRepeatPressesInterval_MS := DEFAULT_REPEAT_PRESS_INTERVAL
      ulRepeatInitialOffsetDelay_MS := DEFAULT_REPEAT_INITIAL_OFFSET_INTERVAL
      ulAccelerationInitialOffsetDelay_MS := DEFAULT_ACCELERATION_INITIAL_OFFSET_INTERVAL
      ulAccelerationPressesInterval_MS := DEFAULT_ACCELERATION_PRESSES_INTERVAL
      ulRepeatPressesPeriodEnd := junkPeriodEnd
      ulButtonOperationStart := junkStart
      uiButtonPin := uiButtonPin }
  setDebounceInterval s0 ulDebounceInterval_MS

/-- `AcksenButton::checkDebounceStatus` (cpp lines 216-247). -/
def checkDebounceStatus (w : Nat) (s : AcksenButton) (raw : Bool) (now : Nat) :
    Bool × AcksenButton :=
  if s.bDebouncedButtonState ≠ raw then
    if s.ulDebounceInterval_MS ≤ wsub w now s.ulLastStatusUpdate_MS then
      let s1 := { s with ulLastStatusUpdate_MS := now, bDebouncedButtonState := raw }
      if s1.uiButtonOperationMode = ACKSEN_BUTTON_MODE_REPEAT
          ∨ s1.uiButtonOperationMode = ACKSEN_BUTTON_MODE_ACCELERATE then
        let s2 :=
          if s1.uiButtonOperationMode = ACKSEN_BUTTON_MODE_ACCELERATE then
            { s1 with ulButtonOperationStart := now }
          else s1
        (true, { s2 with
          ulRepeatPressesPeriodEnd := wadd w now s2.ulRepeatInitialOffsetDelay_MS })
      else (true, s1)
    else (false, s)
  else (false, s)

/-- The tail of `AcksenButton::refreshStatus` (cpp lines 170-199): the long-press
section and the final `return bStateChangeRecorded = false`, reached whenever
neither the debounce check nor a repeat period produced an event. -/
def refreshLongPress (w : Nat) (s : AcksenButton) (now : Nat) : Bool × AcksenButton :=
  let s1 :=
    if s.bDebouncedButtonState = false then
      { s with bLongPressRecorded := false, bLongPressProcessed := false }
    else s
  let s2 :=
    if s1.uiButtonOperationMode = ACKSEN_BUTTON_MODE_LONGPRESS then
      if s1.bLongPressRecorded = false then
        if s1.bDebouncedButtonState = true
            ∧ s1.ulLongPressInterval_MS ≤ wsub w now s1.ulLastStatusUpdate_MS then
          { s1 with bLongPressRecorded := true, bLongPressProcessed := false }
        else if s1.bDebouncedButtonState = false then
          { s1 with bLongPressRecorded := false }
        else s1
      else s1
    else s1
  (false, { s2 with bStateChangeRecorded := false })

/-- `AcksenButton::refreshStatus` (cpp lines 109-200). -/
def refreshStatus (w : Nat) (s : AcksenButton) (raw : Bool) (now : Nat) :
    Bool × AcksenButton :=
  let r := checkDebounceStatus w s raw now
  if r.1 = true then
    (true, { r.2 with bStateChangeRecorded := true })
  else
    let s1 := r.2
    if s1.bDebouncedButtonState = true then
      if s1.uiButtonOperationMode = ACKSEN_BUTTON_MODE_REPEAT then
        if s1.ulRepeatPressesPeriodEnd ≤ now then
          (true, { s1 with
            ulRepeatPressesPeriodEnd := wadd w now s1.ulRepeatPressesInterval_MS,
            bStateChangeRecorded := true })
        else refreshLongPress w s1 now
      else if s1.uiButtonOperationMode = ACKSEN_BUTTON_MODE_ACCELERATE then
        if s1.ulRepeatPressesPeriodEnd ≤ now then
          let s2 :=
            if s1.ulAccelerationInitialOffsetDelay_MS
                ≤ wsub w now s1.ulButtonOperationStart then
              { s1 with
                ulRepeatPressesPeriodEnd := wadd w now s1.ulAccelerationPressesInterval_MS }
            else
              { s1 with
                ulRepeatPressesPeriodEnd := wadd w now s1.ulRepeatPressesInterval_MS }
          (true, { s2 with bStateChangeRecorded := true })
        else refreshLongPress w s1 now
      else refreshLongPress w s1 now
    else refreshLongPress w s1 now

/-- `AcksenButton::getTimeFromLastStateChange` (cpp lines 203-206). -/
def getTimeFromLastStateChange (w : Nat) (s : AcksenButton) (now : Nat) :
    Nat × AcksenButton :=
  (wsub w now s.ulLastStatusUpdate_MS, s)

/-- `AcksenButton::getButtonState` (cpp lines 209-212). -/
def getButtonState (s : AcksenButton) : Bool × AcksenButton :=
  (s.bDebouncedButtonState, s)

/-- `AcksenButton::onPressed` (cpp lines 250-265). -/
def onPressed (s : AcksenButton) : Bool × AcksenButton :=
  let bTransitionRecorded := s.bStateChangeRecorded && s.bDebouncedButtonState
  if bTransitionRecorded = true then
    (bTransitionRecorded, { s with bStateChangeRecorded := false })
  else (bTransitionRecorded, s)

/-- `AcksenButton::onLongPress` (cpp lines 268-293). -/
def onLongPress (s : AcksenButton) : Bool × AcksenButton :=
  if s.uiButtonOperationMode = ACKSEN_BUTTON_MODE_LONGPRESS then
    if s.bLongPressRecorded = true ∧ s.bLongPressProcessed = false then
      (true, { s with bLongPressProcessed := true })
    else (false, s)
  else (false, s)

/-- `AcksenButton::onReleased` (cpp lines 296-311). -/
def onReleased (s : AcksenButton) : Bool × AcksenButton :=
  let bTransitionRecorded := s.bStateChangeRecorded && !s.bDebouncedButtonState
  if bTransitionRecorded = true then
    (bTransitionRecorded, { s with bStateChangeRecorded := false })
  else (bTransitionRecorded, s)

end AcksenButton

/-- The three event queries of the class (`onPressed`, `onReleased`,
`onLongPress`), as values, so that sequences of calls can be described. -/
inductive Query where
  | onPressed
  | onReleased
  | onLongPress
  deriving DecidableEq, Repr

/-- Calling one query on the object. -/
def Query.call : Query → AcksenButton → Bool × AcksenButton
  | Query.onPressed, s => s.onPressed
  | Query.onReleased, s => s.onReleased
  | Query.onLongPress, s => s.onLongPress

/-- Calling a sequence of queries one after the other, with no `refreshStatus`
in between: the returned values in call order, and the object at the end. -/
def callQueries : AcksenButton → List Query → List Bool × AcksenButton
  | s, [] => ([], s)
  | s, q :: qs => ((q.call s).1 :: (callQueries (q.call s).2 qs).1,
      (callQueries (q.call s).2 qs).2)

/-- One call made by the polling loop: a `refreshStatus` that reads the raw
level `raw` at clock value `now`, or one of the queries. -/
inductive Op where
  | refresh (raw : Bool) (now : Nat)
  | query (q : Query)
  deriving DecidableEq, Repr

/-- Executing one call of the polling loop. -/
def Op.call (w : Nat) : Op → AcksenButton → Bool × AcksenButton
  | Op.refresh raw now, s => s.refreshStatus w raw now
  | Op.query q, s => q.call s

/-- The values returned by a sequence of calls, in call order. -/
def callOps (w : Nat) : AcksenButton → List Op → List Bool
  | _, [] => []
  | s, op :: ops => (op.call w s).1 :: callOps w (op.call w s).2 ops

/-- No `refreshStatus` of the sequence accepts a level change: at each refresh
the debounce check, run on the object as it is at that point, returns false. -/
def acceptsNone (w : Nat) : AcksenButton → List Op → Bool
  | _, [] => true
  | s, Op.refresh raw now :: ops =>
      !(s.checkDebounceStatus w raw now).1
        && acceptsNone w (s.refreshStatus w raw now).2 ops
  | s, Op.query q :: ops => acceptsNone w (q.call s).2 ops

/-- The object after a schedule of `refreshStatus` calls, each given as the pair
(raw level read, clock value read). -/
def refreshAll (w : Nat) : AcksenButton → List (Bool × Nat) → AcksenButton
  | s, [] => s
  | s, x :: xs => refreshAll w (s.refreshStatus w x.1 x.2).2 xs

/-- One call of a public member function, with its arguments and, where the
function reads them, the raw pin level and the clock value it reads. -/
inductive Call where
  | setDebounceInterval (v : Nat)
  | setLongPressInterval (v : Nat)
  | setRepeatPressesInterval (v : Nat)
  | setRepeatInitialOffsetDelay (v : Nat)
  | setAccelerationPressesInterval (v : Nat)
  | setAccelerationInitialOffsetDelay (v : Nat)
  | setButtonOperatingMode (m : Nat)
  | refreshStatus (raw : Bool) (now : Nat)
  | getButtonState
  | getTimeFromLastStateChange (now : Nat)
  | onPressed
  | onLongPress
  | onReleased
  deriving DecidableEq, Repr

/-- The object after one call of a public member function. -/
def Call.exec (w : Nat) : Call → AcksenButton → AcksenButton
  | Call.setDebounceInterval v, s => s.setDebounceInterval v
  | Call.setLongPressInterval v, s => s.setLongPressInterval v
  | Call.setRepeatPressesInterval v, s => s.setRepeatPressesInterval v
  | Call.setRepeatInitialOffsetDelay v, s => s.setRepeatInitialOffsetDelay v
  | Call.setAccelerationPressesInterval v, s => s.setAccelerationPressesInterval v
  | Call.setAccelerationInitialOffsetDelay v, s => s.setAccelerationInitialOffsetDelay v
  | Call.setButtonOperatingMode m, s => s.setButtonOperatingMode m
  | Call.refreshStatus raw now, s => (s.refreshStatus w raw now).2
  | Call.getButtonState, s => s.getButtonState.2
  | Call.getTimeFromLastStateChange now, s => (s.getTimeFromLastStateChange w now).2
  | Call.onPressed, s => s.onPressed.2
  | Call.onLongPress, s => s.onLongPress.2
  | Call.onReleased, s => s.onReleased.2

/-- The object after a sequence of calls of public member functions. -/
def execAll (w : Nat) : AcksenButton → List Call → AcksenButton
  | s, [] => s
  | s, c :: cs => execAll w (c.exec w s) cs

/-- Whether the latest `refreshStatus` call accepted a release, after the call
`c` made on the object `s`: a `refreshStatus` call answers by its own debounce
check and the raw level it read, any other call leaves the answer `b` as it
was. -/
def Call.justReleased (w : Nat) : Call → AcksenButton → Bool → Bool
  | Call.refreshStatus raw now, s, _ => (s.checkDebounceStatus w raw now).1 && !raw
  | _, _, b => b

/-- Whether, at the end of a sequence of calls, the latest `refreshStatus` call
is one that accepted a release (`b` is the answer before the sequence). -/
def endsJustReleased (w : Nat) : AcksenButton → List Call → Bool → Bool
  | _, [], b => b
  | s, c :: cs, b => endsJustReleased w (c.exec w s) cs (c.justReleased w s b)

/-- The polling loop of a held button: at each clock value of the list,
`refreshStatus` reads the raw level high and is followed by one `onPressed`
call; the list of the values returned by the `onPressed` calls. -/
def holdPolls (w : Nat) : AcksenButton → List Nat → List Bool
  | _, [] => []
  | s, t :: ts =>
      (AcksenButton.onPressed (s.refreshStatus w true t).2).1
        :: holdPolls w (AcksenButton.onPressed (s.refreshStatus w true t).2).2 ts

/-- The repeat timing as the specification words it (spec section 8, Repeat
mode), for comparison with `holdPolls`: an event is due from time `due` on; the
first poll at or after `due` reports it, and the next event is then due one
repeat interval `R` after that poll; every other poll reports nothing. -/
def specRepeatEvents (R : Nat) : Nat → List Nat → List Bool
  | _, [] => []
  | due, t :: ts =>
      if due ≤ t then true :: specRepeatEvents R (t + R) ts
      else false :: specRepeatEvents R due ts

/-- The long-press delivery as the specification words it (spec section 8,
LongPress mode), for comparison with `callOps` on a hold that began at `t0`:
`armed` says that some refresh has seen the hold last `L` or longer,
`delivered` that `onLongPress` has already returned true.  A refresh returns
false and arms once `(now - t0) mod 2^w ≥ L`; a query returns true exactly when
armed and not yet delivered. -/
def specLongPressEvents (w t0 L : Nat) : Bool → Bool → List Op → List Bool
  | _, _, [] => []
  | armed, delivered, Op.refresh _ now :: ops =>
      false :: specLongPressEvents w t0 L (armed || decide (L ≤ wsub w now t0)) delivered ops
  | armed, delivered, Op.query _ :: ops =>
      (armed && !delivered) :: specLongPressEvents w t0 L armed (delivered || armed) ops

/-- The object with every stored timestamp (last change, repeat-period end,
hold start) advanced by `k` modulo `2 ^ w`. -/
def shiftTime (w k : Nat) (s : AcksenButton) : AcksenButton :=
  { s with
    ulLastStatusUpdate_MS := wadd w s.ulLastStatusUpdate_MS k
    ulRepeatPressesPeriodEnd := wadd w s.ulRepeatPressesPeriodEnd k
    ulButtonOperationStart := wadd w s.ulButtonOperationStart k }

/-- A sample button: released, Normal mode, debounce 50 ms, header defaults for
the other intervals, last accepted change at time 0. -/
def sampleButton : AcksenButton :=
  { uiButtonOperationMode := ACKSEN_BUTTON_MODE_NORMAL
    ulLastStatusUpdate_MS := 0
    ulDebounceInterval_MS := 50
    ulLongPressInterval_MS := 2000
    bDebouncedButtonState := false
    bStateChangeRecorded := false
    bLongPressRecorded := false
    bLongPressProcessed := false
    ulRepeatPressesInterval_MS := 500
    ulRepeatInitialOffsetDelay_MS := 1500
    ulAccelerationInitialOffsetDelay_MS := 3000
    ulAccelerationPressesInterval_MS := 100
    ulRepeatPressesPeriodEnd := 0
    ulButtonOperationStart := 0
    uiButtonPin := 2 }

/-- The sample button configured for Repeat mode. -/
def sampleRepeatButton : AcksenButton :=
  { sampleButton with uiButtonOperationMode := ACKSEN_BUTTON_MODE_REPEAT }

/-- A LongPress button (debounce 50 ms, long-press interval 2000 ms) constructed
at time 0 with the pin low, then pressed at 100, held to 2200 where the long
press is recorded, the long press delivered by `onLongPress`, and the release
accepted by the refresh at 2300. -/
def releasedAfterLongPress : AcksenButton :=
  execAll 32 (AcksenButton.new 2 ACKSEN_BUTTON_MODE_LONGPRESS 50 0 false 0 false 0 0)
    [Call.refreshStatus true 100, Call.refreshStatus true 2200, Call.onLongPress,
      Call.refreshStatus false 2300]

/-- Wrapping subtraction is subtraction of integers reduced modulo `2 ^ w`. -/
theorem wsub_eq_emod (w a b : Nat) :
    ((wsub w a b : Nat) : Int) = ((a : Int) - (b : Int)) % ((2 : Int) ^ w) := by
  unfold wsub
  have hpos : 0 < 2 ^ w := Nat.pos_of_ne_zero (by positivity)
  have hlt : b % 2 ^ w < 2 ^ w := Nat.mod_lt _ hpos
  push_cast [Nat.cast_sub hlt.le]
  rw [show ((a : Int) + ((2 : Int) ^ w - (b : Int) % (2 : Int) ^ w))
        = ((a : Int) - (b : Int) % (2 : Int) ^ w) + (2 : Int) ^ w by ring]
  rw [Int.add_emod_self, Int.sub_emod, Int.emod_emod, ← Int.sub_emod]

namespace AcksenButton

/-- The debounce check reports a change exactly when the raw level differs from
the debounced level and the debounce interval has elapsed. -/
theorem checkDebounceStatus_fst_iff (w : Nat) (s : AcksenButton) (raw : Bool) (now : Nat) :
    (checkDebounceStatus w s raw now).1 = true ↔
      (s.bDebouncedButtonState ≠ raw
        ∧ s.ulDebounceInterval_MS ≤ wsub w now s.ulLastStatusUpdate_MS) := by
  by_cases hA : s.uiButtonOperationMode = ACKSEN_BUTTON_MODE_ACCELERATE <;>
  by_cases hR : s.uiButtonOperationMode = ACKSEN_BUTTON_MODE_REPEAT <;>
  by_cases h1 : s.bDebouncedButtonState = raw <;>
  by_cases h2 : s.ulDebounceInterval_MS ≤ wsub w now s.ulLastStatusUpdate_MS <;>
  simp [checkDebounceStatus, hA, hR, h1, h2]

/-- A debounce check that reports no change leaves the object untouched. -/
theorem checkDebounceStatus_of_false (w : Nat) (s : AcksenButton) (raw : Bool) (now : Nat)
    (h : (checkDebounceStatus w s raw now).1 = false) :
    checkDebounceStatus w s raw now = (false, s) := by
  have h0 := (checkDebounceStatus_fst_iff w s raw now).not.1 (by simp [h])
  by_cases h1 : s.bDebouncedButtonState = raw
  · simp [checkDebounceStatus, h1]
  · have h2 : ¬ s.ulDebounceInterval_MS ≤ wsub w now s.ulLastStatusUpdate_MS :=
      fun h2 => h0 ⟨h1, h2⟩
    simp [checkDebounceStatus, h1, h2]

/-- What an accepting debounce check writes, apart from the repeat timers. -/
theorem checkDebounceStatus_of_true (w : Nat) (s : AcksenButton) (raw : Bool) (now : Nat)
    (h : (checkDebounceStatus w s raw now).1 = true) :
    (checkDebounceStatus w s raw now).2.bDebouncedButtonState = raw
      ∧ (checkDebounceStatus w s raw now).2.ulLastStatusUpdate_MS = now
      ∧ (checkDebounceStatus w s raw now).2.bStateChangeRecorded = s.bStateChangeRecorded
      ∧ (checkDebounceStatus w s raw now).2.bLongPressRecorded = s.bLongPressRecorded
      ∧ (checkDebounceStatus w s raw now).2.bLongPressProcessed = s.bLongPressProcessed
      ∧ (checkDebounceStatus w s raw now).2.uiButtonOperationMode = s.uiButtonOperationMode
      ∧ (checkDebounceStatus w s raw now).2.ulDebounceInterval_MS = s.ulDebounceInterval_MS := by
  obtain ⟨h1, h2⟩ := (checkDebounceStatus_fst_iff w s raw now).1 h
  by_cases hA : s.uiButtonOperationMode = ACKSEN_BUTTON_MODE_ACCELERATE <;>
  by_cases hR : s.uiButtonOperationMode = ACKSEN_BUTTON_MODE_REPEAT <;>
  simp [checkDebounceStatus, hA, hR, h1, h2]

/-- A refresh whose debounce check accepts returns at once with the latch set. -/
theorem refreshStatus_of_accept (w : Nat) (s : AcksenButton) (raw : Bool) (now : Nat)
    (h : (checkDebounceStatus w s raw now).1 = true) :
    refreshStatus w s raw now
      = (true, { (checkDebounceStatus w s raw now).2 with bStateChangeRecorded := true }) := by
  simp [refreshStatus, h]

/-- The tail of a refresh returns false, clears the latch, and keeps the
debounce state and the configuration. -/
theorem refreshLongPress_frame (w : Nat) (s : AcksenButton) (now : Nat) :
    (refreshLongPress w s now).1 = false
      ∧ (refreshLongPress w s now).2.bStateChangeRecorded = false
      ∧ (refreshLongPress w s now).2.bDebouncedButtonState = s.bDebouncedButtonState
      ∧ (refreshLongPress w s now).2.ulLastStatusUpdate_MS = s.ulLastStatusUpdate_MS
      ∧ (refreshLongPress w s now).2.ulDebounceInterval_MS = s.ulDebounceInterval_MS
      ∧ (refreshLongPress w s now).2.uiButtonOperationMode = s.uiButtonOperationMode
      ∧ (refreshLongPress w s now).2.ulRepeatPressesPeriodEnd = s.ulRepeatPressesPeriodEnd
      ∧ (refreshLongPress w s now).2.ulButtonOperationStart = s.ulButtonOperationStart := by
  by_cases hL : s.uiButtonOperationMode = ACKSEN_BUTTON_MODE_LONGPRESS <;>
  by_cases hb : s.bDebouncedButtonState = true <;>
  by_cases hr : s.bLongPressRecorded = true <;>
  by_cases ht : s.ulLongPressInterval_MS ≤ wsub w now s.ulLastStatusUpdate_MS <;>
  simp [refreshLongPress, hL, hb, hr, ht]

/-- An accepted level change: what `refreshStatus` returns and writes. -/
theorem refreshStatus_accepts (w : Nat) (s : AcksenButton) (raw : Bool) (now : Nat)
    (hne : raw ≠ s.bDebouncedButtonState)
    (hD : s.ulDebounceInterval_MS ≤ wsub w now s.ulLastStatusUpdate_MS) :
    (refreshStatus w s raw now).1 = true
      ∧ (refreshStatus w s raw now).2.bDebouncedButtonState = raw
      ∧ (refreshStatus w s raw now).2.ulLastStatusUpdate_MS = now
      ∧ (refreshStatus w s raw now).2.bStateChangeRecorded = true
      ∧ (refreshStatus w s raw now).2.bLongPressRecorded = s.bLongPressRecorded
      ∧ (refreshStatus w s raw now).2.bLongPressProcessed = s.bLongPressProcessed := by
  have hc : (checkDebounceStatus w s raw now).1 = true :=
    (checkDebounceStatus_fst_iff w s raw now).2 ⟨fun h => hne h.symm, hD⟩
  have ht := checkDebounceStatus_of_true w s raw now hc
  rw [refreshStatus_of_accept w s raw now hc]
  simp [ht]

/-- C1: when the raw level differs from the debounced level and the wrapped
time since the last accepted change has reached the debounce interval,
`refreshStatus` returns true, the debounced level becomes the raw level, the
last-change timestamp becomes `now`, the edge latch is set, and the two
long-press flags are unchanged. -/
theorem C1_refresh_accepts_level_change (w : Nat) (s : AcksenButton) (raw : Bool) (now : Nat)
    (hne : raw ≠ s.bDebouncedButtonState)
    (hD : s.ulDebounceInterval_MS ≤ wsub w now s.ulLastStatusUpdate_MS) :
    (refreshStatus w s raw now).1 = true
      ∧ (refreshStatus w s raw now).2.bDebouncedButtonState = raw
      ∧ (refreshStatus w s raw now).2.ulLastStatusUpdate_MS = now
      ∧ (refreshStatus w s raw now).2.bStateChangeRecorded = true
      ∧ (refreshStatus w s raw now).2.bLongPressRecorded = s.bLongPressRecorded
      ∧ (refreshStatus w s raw now).2.bLongPressProcessed = s.bLongPressProcessed :=
  refreshStatus_accepts w s raw now hne hD

/-- C1 witness: the sample button (released, last change at 0, debounce 50)
sees the raw level high at time 60. -/
theorem C1_refresh_accepts_level_change_witness :
    (AcksenButton.refreshStatus 32 sampleButton true 60).1 = true
      ∧ (AcksenButton.refreshStatus 32 sampleButton true 60).2.bDebouncedButtonState = true
      ∧ (AcksenButton.refreshStatus 32 sampleButton true 60).2.ulLastStatusUpdate_MS = 60
      ∧ (AcksenButton.refreshStatus 32 sampleButton true 60).2.bStateChangeRecorded = true
      ∧ (AcksenButton.refreshStatus 32 sampleButton true 60).2.bLongPressRecorded
          = sampleButton.bLongPressRecorded
      ∧ (AcksenButton.refreshStatus 32 sampleButton true 60).2.bLongPressProcessed
          = sampleButton.bLongPressProcessed :=
  C1_refresh_accepts_level_change 32 sampleButton true 60 (by decide) (by decide)

/-- A refresh whose debounce check accepts nothing runs the repeat section and
then the long-press tail on the unchanged object. -/
theorem refreshStatus_of_no_accept (w : Nat) (s : AcksenButton) (raw : Bool) (now : Nat)
    (h : (checkDebounceStatus w s raw now).1 = false) :
    refreshStatus w s raw now =
      if s.bDebouncedButtonState = true
          ∧ s.uiButtonOperationMode = ACKSEN_BUTTON_MODE_REPEAT
          ∧ s.ulRepeatPressesPeriodEnd ≤ now then
        (true, { s with
          ulRepeatPressesPeriodEnd := wadd w now s.ulRepeatPressesInterval_MS,
          bStateChangeRecorded := true })
      else if s.bDebouncedButtonState = true
          ∧ s.uiButtonOperationMode = ACKSEN_BUTTON_MODE_ACCELERATE
          ∧ s.ulRepeatPressesPeriodEnd ≤ now then
        (true, { s with
          ulRepeatPressesPeriodEnd := wadd w now
            (if s.ulAccelerationInitialOffsetDelay_MS ≤ wsub w now s.ulButtonOperationStart
              then s.ulAccelerationPressesInterval_MS else s.ulRepeatPressesInterval_MS),
          bStateChangeRecorded := true })
      else refreshLongPress w s now := by
  have hc := checkDebounceStatus_of_false w s raw now h
  by_cases hb : s.bDebouncedButtonState = true <;>
  by_cases hR : s.uiButtonOperationMode = ACKSEN_BUTTON_MODE_REPEAT <;>
  by_cases hA : s.uiButtonOperationMode = ACKSEN_BUTTON_MODE_ACCELERATE <;>
  by_cases hp : s.ulRepeatPressesPeriodEnd ≤ now <;>
  by_cases ha : s.ulAccelerationInitialOffsetDelay_MS ≤ wsub w now s.ulButtonOperationStart <;>
  simp [refreshStatus, hc, hb, hR, hA, hp, ha]

/-- A refresh that accepts no level change keeps the debounce state, the
hold-start timestamp and the configuration. -/
theorem refreshStatus_frame_of_no_accept (w : Nat) (s : AcksenButton) (raw : Bool) (now : Nat)
    (h : (checkDebounceStatus w s raw now).1 = false) :
    (refreshStatus w s raw now).2.bDebouncedButtonState = s.bDebouncedButtonState
      ∧ (refreshStatus w s raw now).2.ulLastStatusUpdate_MS = s.ulLastStatusUpdate_MS
      ∧ (refreshStatus w s raw now).2.ulDebounceInterval_MS = s.ulDebounceInterval_MS
      ∧ (refreshStatus w s raw now).2.uiButtonOperationMode = s.uiButtonOperationMode
      ∧ (refreshStatus w s raw now).2.ulButtonOperationStart = s.ulButtonOperationStart := by
  have hf := refreshLongPress_frame w s now
  rw [refreshStatus_of_no_accept w s raw now h]
  split_ifs <;> simp [hf]

/-- The tail of a refresh writes only the edge latch and the two long-press
flags. -/
theorem refreshLongPress_writes (w : Nat) (s : AcksenButton) (now : Nat) :
    (refreshLongPress w s now).2 =
      { s with
        bStateChangeRecorded := false,
        bLongPressRecorded := (refreshLongPress w s now).2.bLongPressRecorded,
        bLongPressProcessed := (refreshLongPress w s now).2.bLongPressProcessed } := by
  by_cases hL : s.uiButtonOperationMode = ACKSEN_BUTTON_MODE_LONGPRESS <;>
  by_cases hb : s.bDebouncedButtonState = true <;>
  by_cases hr : s.bLongPressRecorded = true <;>
  by_cases ht : s.ulLongPressInterval_MS ≤ wsub w now s.ulLastStatusUpdate_MS <;>
  simp [refreshLongPress, hL, hb, hr, ht]

/-- A refresh that accepts no level change writes only the edge latch, the two
long-press flags and the repeat-period-end timestamp. -/
theorem refreshStatus_writes_of_no_accept (w : Nat) (s : AcksenButton) (raw : Bool)
    (now : Nat) (h : (checkDebounceStatus w s raw now).1 = false) :
    (refreshStatus w s raw now).2 =
      { s with
        bStateChangeRecorded := (refreshStatus w s raw now).2.bStateChangeRecorded,
        bLongPressRecorded := (refreshStatus w s raw now).2.bLongPressRecorded,
        bLongPressProcessed := (refreshStatus w s raw now).2.bLongPressProcessed,
        ulRepeatPressesPeriodEnd := (refreshStatus w s raw now).2.ulRepeatPressesPeriodEnd } := by
  rw [refreshStatus_of_no_accept w s raw now h]
  have hw := refreshLongPress_writes w s now
  generalize refreshLongPress w s now = r at hw ⊢
  split_ifs
  all_goals first
    | rfl
    | rw [hw]

/-- C3, as the code has it: when the raw level differs from the debounced level
but the wrapped time since the last accepted change is below the debounce
interval, the debounce check changes nothing and returns false, and
`refreshStatus` then proceeds exactly as for a raw level equal to the debounced
level: the debounced level, the last-change and hold-start timestamps, the mode,
the intervals and the pin are unchanged, and only the edge latch, the two
long-press flags and the repeat-period-end timestamp can be written. -/
theorem C3_refresh_within_debounce (w : Nat) (s : AcksenButton) (raw : Bool) (now : Nat)
    (_hne : raw ≠ s.bDebouncedButtonState)
    (hlt : wsub w now s.ulLastStatusUpdate_MS < s.ulDebounceInterval_MS) :
    checkDebounceStatus w s raw now = (false, s)
      ∧ refreshStatus w s raw now = refreshStatus w s s.bDebouncedButtonState now
      ∧ (refreshStatus w s raw now).2 =
          { s with
            bStateChangeRecorded := (refreshStatus w s raw now).2.bStateChangeRecorded,
            bLongPressRecorded := (refreshStatus w s raw now).2.bLongPressRecorded,
            bLongPressProcessed := (refreshStatus w s raw now).2.bLongPressProcessed,
            ulRepeatPressesPeriodEnd :=
              (refreshStatus w s raw now).2.ulRepeatPressesPeriodEnd } := by
  have h1 : (checkDebounceStatus w s raw now).1 = false := by
    have := (checkDebounceStatus_fst_iff w s raw now).not.2
      (fun hh => absurd hh.2 (Nat.not_le.2 hlt))
    simpa using this
  have h2 : (checkDebounceStatus w s s.bDebouncedButtonState now).1 = false := by
    have := (checkDebounceStatus_fst_iff w s s.bDebouncedButtonState now).not.2
      (fun hh => hh.1 rfl)
    simpa using this
  refine ⟨checkDebounceStatus_of_false w s raw now h1, ?_,
    refreshStatus_writes_of_no_accept w s raw now h1⟩
  rw [refreshStatus_of_no_accept w s raw now h1,
    refreshStatus_of_no_accept w s s.bDebouncedButtonState now h2]

/-- C4: `refreshStatus` returns true exactly when the debounced level after the
call differs from the one before, or a repeat/accelerate event fired (no level
change accepted, debounced level pressed, mode Repeat or Accelerate, and
`now` at or past repeat-period-end); and the returned value always equals the
edge latch after the call. -/
theorem C4_refresh_return_value (w : Nat) (s : AcksenButton) (raw : Bool) (now : Nat) :
    ((refreshStatus w s raw now).1 = true ↔
        ((refreshStatus w s raw now).2.bDebouncedButtonState ≠ s.bDebouncedButtonState
          ∨ ((checkDebounceStatus w s raw now).1 = false
              ∧ s.bDebouncedButtonState = true
              ∧ (s.uiButtonOperationMode = ACKSEN_BUTTON_MODE_REPEAT
                  ∨ s.uiButtonOperationMode = ACKSEN_BUTTON_MODE_ACCELERATE)
              ∧ s.ulRepeatPressesPeriodEnd ≤ now)))
      ∧ (refreshStatus w s raw now).1 = (refreshStatus w s raw now).2.bStateChangeRecorded := by
  by_cases hc : (checkDebounceStatus w s raw now).1 = true
  · have ht := checkDebounceStatus_of_true w s raw now hc
    have hne := ((checkDebounceStatus_fst_iff w s raw now).1 hc).1
    rw [refreshStatus_of_accept w s raw now hc]
    have hne2 : ¬ raw = s.bDebouncedButtonState := fun h => hne h.symm
    simp [ht.1, hne2]
  · have hc : (checkDebounceStatus w s raw now).1 = false := by simpa using hc
    have hf := refreshLongPress_frame w s now
    rw [refreshStatus_of_no_accept w s raw now hc]
    by_cases hb : s.bDebouncedButtonState = true <;>
    by_cases hR : s.uiButtonOperationMode = ACKSEN_BUTTON_MODE_REPEAT <;>
    by_cases hA : s.uiButtonOperationMode = ACKSEN_BUTTON_MODE_ACCELERATE <;>
    by_cases hp : s.ulRepeatPressesPeriodEnd ≤ now <;>
    simp [hc, hb, hR, hA, hp, hf]

/-- C3 counterexample: a press was accepted at time 60 and its edge latch is
still set; at time 70 the raw level reads low (it differs from the debounced
level, and only 10 ms of the 50 ms debounce interval have passed), and the
refresh clears the edge latch. -/
theorem C3_counterexample :
    false ≠ (AcksenButton.refreshStatus 32 sampleButton true 60).2.bDebouncedButtonState
      ∧ wsub 32 70 (AcksenButton.refreshStatus 32 sampleButton true 60).2.ulLastStatusUpdate_MS
          < (AcksenButton.refreshStatus 32 sampleButton true 60).2.ulDebounceInterval_MS
      ∧ (AcksenButton.refreshStatus 32
            (AcksenButton.refreshStatus 32 sampleButton true 60).2 false 70).2.bStateChangeRecorded
          ≠ (AcksenButton.refreshStatus 32 sampleButton true 60).2.bStateChangeRecorded := by
  decide

/-- C3 witness: the sample button (released, last change at 0, debounce 50)
sees the raw level high at time 10. -/
theorem C3_refresh_within_debounce_witness :
    AcksenButton.checkDebounceStatus 32 sampleButton true 10 = (false, sampleButton)
      ∧ AcksenButton.refreshStatus 32 sampleButton true 10
          = AcksenButton.refreshStatus 32 sampleButton sampleButton.bDebouncedButtonState 10 :=
  let h := AcksenButton.C3_refresh_within_debounce 32 sampleButton true 10
    (by decide) (by decide)
  ⟨h.1, h.2.1⟩

/-- C5: `onPressed` returns true exactly when the edge latch is set and the
debounced level is pressed; a call that returns true clears the latch and
changes nothing else, and a call that returns false changes nothing. -/
theorem C5_onPressed (s : AcksenButton) :
    ((onPressed s).1 = true ↔
        (s.bStateChangeRecorded = true ∧ s.bDebouncedButtonState = true))
      ∧ (onPressed s).2 =
          (if (onPressed s).1 = true then { s with bStateChangeRecorded := false } else s) := by
  by_cases h1 : s.bStateChangeRecorded = true <;>
  by_cases h2 : s.bDebouncedButtonState = true <;>
  simp [onPressed, h1, h2]

/-- The characterisation of `onPressed` used by the sequence lemmas. -/
theorem onPressed_spec (s : AcksenButton) :
    ((onPressed s).1 = true ↔
        (s.bStateChangeRecorded = true ∧ s.bDebouncedButtonState = true))
      ∧ (onPressed s).2 =
          (if (onPressed s).1 = true then { s with bStateChangeRecorded := false } else s) := by
  by_cases h1 : s.bStateChangeRecorded = true <;>
  by_cases h2 : s.bDebouncedButtonState = true <;>
  simp [onPressed, h1, h2]

/-- The characterisation of `onReleased`, mirror of `onPressed`. -/
theorem onReleased_spec (s : AcksenButton) :
    ((onReleased s).1 = true ↔
        (s.bStateChangeRecorded = true ∧ s.bDebouncedButtonState = false))
      ∧ (onReleased s).2 =
          (if (onReleased s).1 = true then { s with bStateChangeRecorded := false } else s) := by
  by_cases h1 : s.bStateChangeRecorded = true <;>
  by_cases h2 : s.bDebouncedButtonState = true <;>
  simp [onReleased, h1, h2]

/-- With the edge latch clear, a sequence of `onPressed` and `onReleased` calls
returns false throughout. -/
theorem callQueries_of_latch_clear (qs : List Query) :
    ∀ s : AcksenButton, s.bStateChangeRecorded = false →
      (∀ q ∈ qs, q = Query.onPressed ∨ q = Query.onReleased) →
      (callQueries s qs).1.count true = 0 := by
  induction qs with
  | nil => intro s _ _; rfl
  | cons q qs ih =>
    intro s hs hq
    have hq0 := hq q (List.mem_cons_self q qs)
    have hrest : ∀ q1 ∈ qs, q1 = Query.onPressed ∨ q1 = Query.onReleased :=
      fun q1 h1 => hq q1 (List.mem_cons_of_mem q h1)
    rcases hq0 with rfl | rfl
    · have h1 : (Query.onPressed.call s).1 = false := by simp [Query.call, onPressed, hs]
      have h2 : (Query.onPressed.call s).2 = s := by simp [Query.call, onPressed, hs]
      simp only [callQueries, h1, h2]
      simpa using ih s hs hrest
    · have h1 : (Query.onReleased.call s).1 = false := by simp [Query.call, onReleased, hs]
      have h2 : (Query.onReleased.call s).2 = s := by simp [Query.call, onReleased, hs]
      simp only [callQueries, h1, h2]
      simpa using ih s hs hrest

/-- C6: `onReleased` returns true exactly when the edge latch is set and the
debounced level is released, clearing the latch (and nothing else) exactly when
it returns true; and in any sequence of `onPressed` and `onReleased` calls with
no `refreshStatus` in between, at most one call returns true. -/
theorem C6_onReleased_exclusive (s : AcksenButton) (qs : List Query)
    (hqs : ∀ q ∈ qs, q = Query.onPressed ∨ q = Query.onReleased) :
    ((onReleased s).1 = true ↔
        (s.bStateChangeRecorded = true ∧ s.bDebouncedButtonState = false))
      ∧ (onReleased s).2 =
          (if (onReleased s).1 = true then { s with bStateChangeRecorded := false } else s)
      ∧ (callQueries s qs).1.count true ≤ 1 := by
  refine ⟨(onReleased_spec s).1, (onReleased_spec s).2, ?_⟩
  induction qs generalizing s with
  | nil => simp [callQueries]
  | cons q qs ih =>
    have hq0 := hqs q (List.mem_cons_self q qs)
    have hrest : ∀ q1 ∈ qs, q1 = Query.onPressed ∨ q1 = Query.onReleased :=
      fun q1 h1 => hqs q1 (List.mem_cons_of_mem q h1)
    by_cases hr : (q.call s).1 = true
    · have hclear : (q.call s).2.bStateChangeRecorded = false := by
        rcases hq0 with rfl | rfl
        · have := (onPressed_spec s).2
          simp only [Query.call] at hr ⊢
          rw [this, if_pos hr]
        · have := (onReleased_spec s).2
          simp only [Query.call] at hr ⊢
          rw [this, if_pos hr]
      have h0 := callQueries_of_latch_clear qs (q.call s).2 hclear hrest
      simp only [callQueries, hr, List.count_cons_self, h0]
      exact le_refl 1
    · have hr2 : (q.call s).1 = false := by simpa using hr
      have hsame : (q.call s).2 = s := by
        rcases hq0 with rfl | rfl
        · have := (onPressed_spec s).2
          simp only [Query.call] at hr ⊢
          rw [this, if_neg hr]
        · have := (onReleased_spec s).2
          simp only [Query.call] at hr ⊢
          rw [this, if_neg hr]
      simp only [callQueries, hr2, hsame]
      simpa using ih s hrest

/-- C6 witness: after an accepted press, the calls `onReleased`, `onPressed`,
`onPressed`, `onReleased` return true once in total. -/
theorem C6_onReleased_exclusive_witness :
    (callQueries (refreshStatus 32 sampleButton true 60).2
        [Query.onReleased, Query.onPressed, Query.onPressed, Query.onReleased]).1.count true
      ≤ 1 :=
  (C6_onReleased_exclusive (refreshStatus 32 sampleButton true 60).2
    [Query.onReleased, Query.onPressed, Query.onPressed, Query.onReleased]
    (by decide)).2.2

/-- C7: `onLongPress` returns true exactly when the mode is LongPress, `recorded`
is true and `processed` is false; a call that returns true sets `processed` and
changes nothing else, and a call that returns false changes nothing. -/
theorem C7_onLongPress (s : AcksenButton) :
    ((onLongPress s).1 = true ↔
        (s.uiButtonOperationMode = ACKSEN_BUTTON_MODE_LONGPRESS
          ∧ s.bLongPressRecorded = true ∧ s.bLongPressProcessed = false))
      ∧ (onLongPress s).2 =
          (if (onLongPress s).1 = true then { s with bLongPressProcessed := true } else s) := by
  by_cases hL : s.uiButtonOperationMode = ACKSEN_BUTTON_MODE_LONGPRESS <;>
  by_cases h1 : s.bLongPressRecorded = true <;>
  by_cases h2 : s.bLongPressProcessed = true <;>
  simp [onLongPress, hL, h1, h2]

/-- A query repeated at once returns false the second time. -/
theorem query_twice (q : Query) (s : AcksenButton) :
    (q.call (q.call s).2).1 = false := by
  cases q
  · by_cases h1 : s.bStateChangeRecorded = true <;>
    by_cases h2 : s.bDebouncedButtonState = true <;>
    simp [Query.call, onPressed, h1, h2]
  · by_cases h1 : s.bStateChangeRecorded = true <;>
    by_cases h2 : s.bDebouncedButtonState = true <;>
    simp [Query.call, onReleased, h1, h2]
  · by_cases hL : s.uiButtonOperationMode = ACKSEN_BUTTON_MODE_LONGPRESS <;>
    by_cases h1 : s.bLongPressRecorded = true <;>
    by_cases h2 : s.bLongPressProcessed = true <;>
    simp [Query.call, onLongPress, hL, h1, h2]

/-- C8: for each of the three queries, a second call made right after the first
returns false. -/
theorem C8_query_twice (q : Query) (s : AcksenButton) :
    (q.call (q.call s).2).1 = false := by
  cases q
  · by_cases h1 : s.bStateChangeRecorded = true <;>
    by_cases h2 : s.bDebouncedButtonState = true <;>
    simp [Query.call, onPressed, h1, h2]
  · by_cases h1 : s.bStateChangeRecorded = true <;>
    by_cases h2 : s.bDebouncedButtonState = true <;>
    simp [Query.call, onReleased, h1, h2]
  · by_cases hL : s.uiButtonOperationMode = ACKSEN_BUTTON_MODE_LONGPRESS <;>
    by_cases h1 : s.bLongPressRecorded = true <;>
    by_cases h2 : s.bLongPressProcessed = true <;>
    simp [Query.call, onLongPress, hL, h1, h2]

/-- C10: in Repeat mode, when no level change is accepted and the debounced
level is pressed: if `now` is at or past repeat-period-end, `refreshStatus`
returns true, sets the edge latch, sets repeat-period-end to
`(now + repeat interval) mod 2^w` and changes no other field; if `now` is before
repeat-period-end, it returns false and repeat-period-end is unchanged. -/
theorem C10_repeat_period (w : Nat) (s : AcksenButton) (raw : Bool) (now : Nat)
    (hmode : s.uiButtonOperationMode = ACKSEN_BUTTON_MODE_REPEAT)
    (hno : (checkDebounceStatus w s raw now).1 = false)
    (hpressed : s.bDebouncedButtonState = true) :
    (if s.ulRepeatPressesPeriodEnd ≤ now then
        refreshStatus w s raw now =
          (true, { s with
            bStateChangeRecorded := true,
            ulRepeatPressesPeriodEnd := (now + s.ulRepeatPressesInterval_MS) % 2 ^ w })
      else
        (refreshStatus w s raw now).1 = false
          ∧ (refreshStatus w s raw now).2.ulRepeatPressesPeriodEnd
              = s.ulRepeatPressesPeriodEnd) := by
  have hf := refreshLongPress_frame w s now
  rw [refreshStatus_of_no_accept w s raw now hno]
  by_cases hp : s.ulRepeatPressesPeriodEnd ≤ now
  · simp [hmode, hpressed, hp, wadd]
  · simp [hmode, hpressed, hp, hf]

/-- C10 witness: in Repeat mode a press is accepted at time 60, which seeds
repeat-period-end to 1560; the refresh at time 1600 fires a repeat. -/
theorem C10_repeat_period_witness :
    (if (refreshStatus 32 sampleRepeatButton true 60).2.ulRepeatPressesPeriodEnd ≤ 1600 then
        refreshStatus 32 (refreshStatus 32 sampleRepeatButton true 60).2 true 1600 =
          (true, { (refreshStatus 32 sampleRepeatButton true 60).2 with
            bStateChangeRecorded := true,
            ulRepeatPressesPeriodEnd :=
              (1600 + (refreshStatus 32 sampleRepeatButton true 60).2.ulRepeatPressesInterval_MS)
                % 2 ^ 32 })
      else
        (refreshStatus 32 (refreshStatus 32 sampleRepeatButton true 60).2 true 1600).1 = false
          ∧ (refreshStatus 32
                (refreshStatus 32 sampleRepeatButton true 60).2 true 1600).2.ulRepeatPressesPeriodEnd
              = (refreshStatus 32 sampleRepeatButton true 60).2.ulRepeatPressesPeriodEnd) :=
  C10_repeat_period 32 (refreshStatus 32 sampleRepeatButton true 60).2 true 1600
    (by decide) (by decide) (by decide)

/-- In Normal or LongPress mode a refresh that accepts no level change returns
false, clears the edge latch and keeps the mode. -/
theorem refreshStatus_quiet (w : Nat) (s : AcksenButton) (raw : Bool) (now : Nat)
    (hmode : s.uiButtonOperationMode = ACKSEN_BUTTON_MODE_NORMAL
      ∨ s.uiButtonOperationMode = ACKSEN_BUTTON_MODE_LONGPRESS)
    (hno : (checkDebounceStatus w s raw now).1 = false) :
    (refreshStatus w s raw now).1 = false
      ∧ (refreshStatus w s raw now).2.bStateChangeRecorded = false
      ∧ (refreshStatus w s raw now).2.uiButtonOperationMode = s.uiButtonOperationMode := by
  have hf := refreshLongPress_frame w s now
  rw [refreshStatus_of_no_accept w s raw now hno]
  rcases hmode with h | h <;> simp [h, hf]

/-- In Normal or LongPress mode, once the edge latch is clear, every `onPressed`
call returns false for as long as no refresh accepts a level change. -/
theorem callOps_of_latch_clear (w : Nat) (ops : List Op) :
    ∀ s : AcksenButton,
      (s.uiButtonOperationMode = ACKSEN_BUTTON_MODE_NORMAL
        ∨ s.uiButtonOperationMode = ACKSEN_BUTTON_MODE_LONGPRESS) →
      s.bStateChangeRecorded = false →
      (∀ op ∈ ops, op = Op.query Query.onPressed ∨ ∃ r n, op = Op.refresh r n) →
      acceptsNone w s ops = true →
      ∀ i : Nat, ops[i]? = some (Op.query Query.onPressed) →
        (callOps w s ops)[i]? = some false := by
  induction ops with
  | nil => intro s _ _ _ _ i hi; simp at hi
  | cons op ops ih =>
    intro s hmode hlatch hops hacc i hi
    have hop := hops op (List.mem_cons_self op ops)
    have hrest : ∀ o ∈ ops, o = Op.query Query.onPressed ∨ ∃ r n, o = Op.refresh r n :=
      fun o ho => hops o (List.mem_cons_of_mem op ho)
    rcases hop with rfl | ⟨r, n, rfl⟩
    · have h1 : (onPressed s).1 = false := by simp [onPressed, hlatch]
      have h2 : (onPressed s).2 = s := by simp [onPressed, hlatch]
      simp only [acceptsNone, Query.call, h2] at hacc
      cases i with
      | zero => simp [callOps, Op.call, Query.call, h1]
      | succ k =>
        simp only [List.getElem?_cons_succ] at hi
        simp only [callOps, Op.call, Query.call, h2, List.getElem?_cons_succ]
        exact ih s hmode hlatch hrest hacc k hi
    · simp only [acceptsNone, Bool.and_eq_true, Bool.not_eq_true'] at hacc
      have hq := refreshStatus_quiet w s r n hmode hacc.1
      cases i with
      | zero => simp at hi
      | succ k =>
        simp only [List.getElem?_cons_succ] at hi
        simp only [callOps, Op.call, List.getElem?_cons_succ]
        exact ih _ (hq.2.2 ▸ hmode) hq.2.1 hrest hacc.2 k hi

/-- C9: in Normal or LongPress mode, after a refresh that accepts a
released-to-pressed transition, in any following sequence of `onPressed` calls
and refreshes none of which accepts a level change, an `onPressed` call returns
true exactly when it is the very first call of the sequence (the first
`onPressed`, with no refresh before it); every other `onPressed` call returns
false, so at most one returns true, and none does once a refresh has run. -/
theorem C9_single_press_event (w : Nat) (s : AcksenButton) (raw : Bool) (now : Nat)
    (ops : List Op)
    (hmode : s.uiButtonOperationMode = ACKSEN_BUTTON_MODE_NORMAL
      ∨ s.uiButtonOperationMode = ACKSEN_BUTTON_MODE_LONGPRESS)
    (hrel : s.bDebouncedButtonState = false) (hraw : raw = true)
    (hD : s.ulDebounceInterval_MS ≤ wsub w now s.ulLastStatusUpdate_MS)
    (hops : ∀ op ∈ ops, op = Op.query Query.onPressed ∨ ∃ r n, op = Op.refresh r n)
    (hno : acceptsNone w (refreshStatus w s raw now).2 ops = true)
    (i : Nat) (hi : ops[i]? = some (Op.query Query.onPressed)) :
    ((callOps w (refreshStatus w s raw now).2 ops)[i]? = some true ↔ i = 0) := by
  have hc : (checkDebounceStatus w s raw now).1 = true :=
    (checkDebounceStatus_fst_iff w s raw now).2 ⟨by simp [hrel, hraw], hD⟩
  have ht := checkDebounceStatus_of_true w s raw now hc
  have hlatch : (refreshStatus w s raw now).2.bStateChangeRecorded = true := by
    rw [refreshStatus_of_accept w s raw now hc]
  have hlevel : (refreshStatus w s raw now).2.bDebouncedButtonState = true := by
    rw [refreshStatus_of_accept w s raw now hc]
    exact ht.1.trans hraw
  have hmode1 : (refreshStatus w s raw now).2.uiButtonOperationMode = ACKSEN_BUTTON_MODE_NORMAL
      ∨ (refreshStatus w s raw now).2.uiButtonOperationMode = ACKSEN_BUTTON_MODE_LONGPRESS := by
    rw [refreshStatus_of_accept w s raw now hc]
    simpa [ht.2.2.2.2.2.1] using hmode
  generalize (refreshStatus w s raw now).2 = s1 at hno hlatch hlevel hmode1 ⊢
  cases ops with
  | nil => simp at hi
  | cons op ops =>
    have hop := hops op (List.mem_cons_self op ops)
    have hrest : ∀ o ∈ ops, o = Op.query Query.onPressed ∨ ∃ r n, o = Op.refresh r n :=
      fun o ho => hops o (List.mem_cons_of_mem op ho)
    cases i with
    | zero =>
      simp only [List.getElem?_cons_zero, Option.some.injEq] at hi
      subst hi
      simp [callOps, Op.call, Query.call, onPressed, hlatch, hlevel]
    | succ k =>
      simp only [List.getElem?_cons_succ] at hi
      have hfalse : (callOps w s1 (op :: ops))[k + 1]? = some false := by
        rcases hop with rfl | ⟨r, n, rfl⟩
        · have h2 : (onPressed s1).2 = { s1 with bStateChangeRecorded := false } := by
            simp [onPressed, hlatch, hlevel]
          simp only [acceptsNone, Query.call, h2] at hno
          simp only [callOps, Op.call, Query.call, h2, List.getElem?_cons_succ]
          exact callOps_of_latch_clear w ops { s1 with bStateChangeRecorded := false }
            hmode1 rfl hrest hno k hi
        · simp only [acceptsNone, Bool.and_eq_true, Bool.not_eq_true'] at hno
          have hq := refreshStatus_quiet w s1 r n hmode1 hno.1
          simp only [callOps, Op.call, List.getElem?_cons_succ]
          exact callOps_of_latch_clear w ops _ (hq.2.2 ▸ hmode1) hq.2.1 hrest hno.2 k hi
      simp [hfalse]

/-- C9 witness: a press accepted at time 60, then `onPressed`, a refresh at 80,
`onPressed` again: the first call (index 0) is the one that returns true. -/
theorem C9_single_press_event_witness :
    ((callOps 32 (refreshStatus 32 sampleButton true 60).2
        [Op.query Query.onPressed, Op.refresh true 80, Op.query Query.onPressed])[0]?
      = some true ↔ 0 = 0)
    ∧ ((callOps 32 (refreshStatus 32 sampleButton true 60).2
        [Op.query Query.onPressed, Op.refresh true 80, Op.query Query.onPressed])[2]?
      = some true ↔ 2 = 0) :=
  ⟨C9_single_press_event 32 sampleButton true 60
      [Op.query Query.onPressed, Op.refresh true 80, Op.query Query.onPressed]
      (by decide) (by decide) rfl (by decide) (by simp) (by decide) 0 (by decide),
   C9_single_press_event 32 sampleButton true 60
      [Op.query Query.onPressed, Op.refresh true 80, Op.query Query.onPressed]
      (by decide) (by decide) rfl (by decide) (by simp) (by decide) 2 (by decide)⟩

/-- Running a schedule in two parts. -/
theorem refreshAll_append (w : Nat) (xs ys : List (Bool × Nat)) :
    ∀ s : AcksenButton, refreshAll w s (xs ++ ys) = refreshAll w (refreshAll w s xs) ys := by
  induction xs with
  | nil => intro s; rfl
  | cons x xs ih => intro s; simp only [List.cons_append, refreshAll]; exact ih _

/-- A schedule in which every refresh either reads the debounced level or comes
before the debounce interval has elapsed keeps the debounced level, the
last-change timestamp and the debounce interval. -/
theorem refreshAll_of_no_accept (w : Nat) (xs : List (Bool × Nat)) :
    ∀ s : AcksenButton,
      (∀ y ∈ xs, y.1 = s.bDebouncedButtonState
        ∨ wsub w y.2 s.ulLastStatusUpdate_MS < s.ulDebounceInterval_MS) →
      (refreshAll w s xs).bDebouncedButtonState = s.bDebouncedButtonState
        ∧ (refreshAll w s xs).ulLastStatusUpdate_MS = s.ulLastStatusUpdate_MS
        ∧ (refreshAll w s xs).ulDebounceInterval_MS = s.ulDebounceInterval_MS := by
  induction xs with
  | nil => intro s _; exact ⟨rfl, rfl, rfl⟩
  | cons x xs ih =>
    intro s h
    have hx := h x (List.mem_cons_self x xs)
    have hno : (checkDebounceStatus w s x.1 x.2).1 = false := by
      have := (checkDebounceStatus_fst_iff w s x.1 x.2).not.2 (fun hh => by
        rcases hx with h1 | h1
        · exact hh.1 h1.symm
        · exact absurd hh.2 (Nat.not_le.2 h1))
      simpa using this
    have hf := refreshStatus_frame_of_no_accept w s x.1 x.2 hno
    have hrec := ih (refreshStatus w s x.1 x.2).2 (by
      intro y hy
      rw [hf.1, hf.2.1, hf.2.2.1]
      exact h y (List.mem_cons_of_mem x hy))
    simp only [refreshAll]
    rw [hrec.1, hrec.2.1, hrec.2.2, hf.1, hf.2.1, hf.2.2.1]
    exact ⟨rfl, rfl, rfl⟩

/-- What the debounce check does measure: the debounce interval runs from the
last accepted level change, not from the flip of the raw level.  For a schedule of
refreshes that first read the debounced level (`pre`), then read the flipped
level while the wrapped time since the last accepted change is below the
debounce interval (`early`), then read the flipped level when that time has
reached the interval (`x`): `getButtonState` is unchanged after every prefix of
`pre ++ early`, and it is changed by the refresh `x`. -/
theorem debounce_from_last_change (w : Nat) (s : AcksenButton)
    (pre early : List (Bool × Nat)) (x : Bool × Nat)
    (hpre : ∀ y ∈ pre, y.1 = s.bDebouncedButtonState)
    (hearly : ∀ y ∈ early, y.1 = (!s.bDebouncedButtonState)
      ∧ wsub w y.2 s.ulLastStatusUpdate_MS < s.ulDebounceInterval_MS)
    (hx : x.1 = (!s.bDebouncedButtonState))
    (hxD : s.ulDebounceInterval_MS ≤ wsub w x.2 s.ulLastStatusUpdate_MS) :
    (∀ n : Nat, (getButtonState (refreshAll w s ((pre ++ early).take n))).1
        = (getButtonState s).1)
      ∧ (getButtonState (refreshAll w s (pre ++ early))).1 = (getButtonState s).1
      ∧ (getButtonState (refreshAll w s (pre ++ early ++ [x]))).1
          = (!(getButtonState s).1) := by
  have hall : ∀ y ∈ pre ++ early, y.1 = s.bDebouncedButtonState
      ∨ wsub w y.2 s.ulLastStatusUpdate_MS < s.ulDebounceInterval_MS := by
    intro y hy
    rcases List.mem_append.1 hy with h | h
    · exact Or.inl (hpre y h)
    · exact Or.inr (hearly y h).2
  have hkeep := refreshAll_of_no_accept w (pre ++ early) s hall
  refine ⟨?_, hkeep.1, ?_⟩
  · intro n
    exact (refreshAll_of_no_accept w ((pre ++ early).take n) s
      (fun y hy => hall y (List.mem_of_mem_take hy))).1
  · rw [refreshAll_append]
    simp only [refreshAll, getButtonState]
    have hne : x.1 ≠ (refreshAll w s (pre ++ early)).bDebouncedButtonState := by
      rw [hkeep.1, hx]; cases s.bDebouncedButtonState <;> decide
    have hD : (refreshAll w s (pre ++ early)).ulDebounceInterval_MS
        ≤ wsub w x.2 (refreshAll w s (pre ++ early)).ulLastStatusUpdate_MS := by
      rw [hkeep.2.1, hkeep.2.2]; exact hxD
    rw [(refreshStatus_accepts w _ x.1 x.2 hne hD).2.1, hx]

/-- C2, the code at the failing input: a Normal-mode button with debounce
interval 50 constructed at time 0 with the pin low (this is `sampleButton`).
The raw level reads low at the refresh at time 40 and is flipped from
`t_f = 100` on.  The refresh at time 100, the first sample of the high level and
earlier than `t_f + 50`, returns true and changes `getButtonState`: the level
registers without having been held, because the debounce check measures the
interval from the last accepted change (time 0) and not from the flip. -/
theorem C2_unheld_sample_registers :
    new 2 ACKSEN_BUTTON_MODE_NORMAL 50 0 false 0 false 0 0 = sampleButton
      ∧ sampleButton.ulDebounceInterval_MS = 50
      ∧ (∀ y ∈ [((false : Bool), (40 : Nat))],
          y.1 = sampleButton.bDebouncedButtonState ∧ y.2 < 100)
      ∧ (∀ y ∈ [((true : Bool), (100 : Nat))],
          y.1 = (!sampleButton.bDebouncedButtonState) ∧ 100 ≤ y.2)
      ∧ 100 < 100 + 50
      ∧ (refreshStatus 32 (refreshAll 32 sampleButton [(false, 40)]) true 100).1 = true
      ∧ (getButtonState (refreshAll 32 sampleButton [(false, 40), (true, 100)])).1
          ≠ (getButtonState (refreshAll 32 sampleButton [(false, 40)])).1 := by
  decide

/-- An example of `debounce_from_last_change`: last accepted change at time 0,
debounce 50; the raw level reads low at 10, high at 20 and 40 (both too early),
and high at 60. -/
theorem debounce_from_last_change_example :
    (getButtonState (refreshAll 32 sampleButton [(false, 10), (true, 20)])).1
        = (getButtonState sampleButton).1
      ∧ (getButtonState (refreshAll 32 sampleButton
          ([(false, 10)] ++ [(true, 20), (true, 40)] ++ [(true, 60)]))).1
        = (!(getButtonState sampleButton).1) :=
  let h := debounce_from_last_change 32 sampleButton
    [(false, 10)] [(true, 20), (true, 40)] (true, 60)
    (by decide) (by decide) (by decide) (by decide)
  ⟨h.1 2, h.2.2⟩

/-- C11: in Accelerate mode, when no level change is accepted, the debounced
level is pressed and `now` is at or past repeat-period-end, `refreshStatus`
returns true, sets the edge latch, and sets repeat-period-end to
`now + acceleration interval` when `(now - hold-start) mod 2^w` has reached the
acceleration initial offset and to `now + repeat interval` otherwise (both sums
modulo `2^w`); no other field, in particular not hold-start, is changed. -/
theorem C11_accelerate_period (w : Nat) (s : AcksenButton) (raw : Bool) (now : Nat)
    (hmode : s.uiButtonOperationMode = ACKSEN_BUTTON_MODE_ACCELERATE)
    (hno : (checkDebounceStatus w s raw now).1 = false)
    (hpressed : s.bDebouncedButtonState = true)
    (hdue : s.ulRepeatPressesPeriodEnd ≤ now) :
    refreshStatus w s raw now =
        (true, { s with
          bStateChangeRecorded := true,
          ulRepeatPressesPeriodEnd :=
            if s.ulAccelerationInitialOffsetDelay_MS ≤ wsub w now s.ulButtonOperationStart
              then (now + s.ulAccelerationPressesInterval_MS) % 2 ^ w
              else (now + s.ulRepeatPressesInterval_MS) % 2 ^ w })
      ∧ (refreshStatus w s raw now).2.ulButtonOperationStart = s.ulButtonOperationStart := by
  rw [refreshStatus_of_no_accept w s raw now hno]
  by_cases ha : s.ulAccelerationInitialOffsetDelay_MS ≤ wsub w now s.ulButtonOperationStart <;>
  simp [hmode, hpressed, hdue, ha, wadd]

/-- C11 witness: the sample button in Accelerate mode with a press accepted at
time 60 (hold-start 60, repeat-period-end 1560); at time 3100 the hold has
lasted 3040 ms, past the acceleration offset 3000, so the next period is the
acceleration interval 100. -/
theorem C11_accelerate_period_witness :
    refreshStatus 32
        (refreshStatus 32 (setButtonOperatingMode sampleButton 3) true 60).2 true 3100
      = (true, { (refreshStatus 32 (setButtonOperatingMode sampleButton 3) true 60).2 with
          bStateChangeRecorded := true,
          ulRepeatPressesPeriodEnd := 3200 }) :=
  (C11_accelerate_period 32
    (refreshStatus 32 (setButtonOperatingMode sampleButton 3) true 60).2 true 3100
    (by decide) (by decide) (by decide) (by decide)).1

/-- C17: each of the seven setters stores its argument in its own field, for
every argument value, and leaves every other field unchanged (putting the old
value of that one field back gives the object before the call). -/
theorem C17_setters_frame (s : AcksenButton) (v : Nat) :
    ((setDebounceInterval s v).ulDebounceInterval_MS = v
        ∧ { setDebounceInterval s v with ulDebounceInterval_MS := s.ulDebounceInterval_MS } = s)
      ∧ ((setLongPressInterval s v).ulLongPressInterval_MS = v
        ∧ { setLongPressInterval s v with
              ulLongPressInterval_MS := s.ulLongPressInterval_MS } = s)
      ∧ ((setRepeatPressesInterval s v).ulRepeatPressesInterval_MS = v
        ∧ { setRepeatPressesInterval s v with
              ulRepeatPressesInterval_MS := s.ulRepeatPressesInterval_MS } = s)
      ∧ ((setRepeatInitialOffsetDelay s v).ulRepeatInitialOffsetDelay_MS = v
        ∧ { setRepeatInitialOffsetDelay s v with
              ulRepeatInitialOffsetDelay_MS := s.ulRepeatInitialOffsetDelay_MS } = s)
      ∧ ((setAccelerationPressesInterval s v).ulAccelerationPressesInterval_MS = v
        ∧ { setAccelerationPressesInterval s v with
              ulAccelerationPressesInterval_MS := s.ulAccelerationPressesInterval_MS } = s)
      ∧ ((setAccelerationInitialOffsetDelay s v).ulAccelerationInitialOffsetDelay_MS = v
        ∧ { setAccelerationInitialOffsetDelay s v with
              ulAccelerationInitialOffsetDelay_MS :=
                s.ulAccelerationInitialOffsetDelay_MS } = s)
      ∧ ((setButtonOperatingMode s v).uiButtonOperationMode = v
        ∧ { setButtonOperatingMode s v with
              uiButtonOperationMode := s.uiButtonOperationMode } = s) := by
  refine ⟨⟨rfl, rfl⟩, ⟨rfl, rfl⟩, ⟨rfl, rfl⟩, ⟨rfl, rfl⟩, ⟨rfl, rfl⟩, ⟨rfl, rfl⟩, ⟨rfl, rfl⟩⟩

/-- C18: `getButtonState` returns the debounced level, and
`getTimeFromLastStateChange` called at time `now` returns
`(now - lastChange) mod 2^w`; neither changes the object. -/
theorem C18_getters_pure (w : Nat) (s : AcksenButton) (now : Nat) :
    getButtonState s = (s.bDebouncedButtonState, s)
      ∧ (((getTimeFromLastStateChange w s now).1 : Nat) : Int)
          = ((now : Int) - (s.ulLastStatusUpdate_MS : Int)) % ((2 : Int) ^ w)
      ∧ (getTimeFromLastStateChange w s now).2 = s :=
  ⟨rfl, wsub_eq_emod w now s.ulLastStatusUpdate_MS, rfl⟩

/-- Wrapping subtraction of zero from a value in range. -/
theorem wsub_zero_right (w a : Nat) (h : a < 2 ^ w) : wsub w a 0 = a := by
  simp [wsub, Nat.mod_eq_of_lt h]

/-- C16: a button constructed at time 0 with debounce interval 50 and mode
Normal while the input reads low, the raw level being high from then on:
`refreshStatus` at time 10 returns false and `getButtonState` stays false;
`refreshStatus` at time 60 returns true and `getButtonState` becomes true; the
`onPressed` call after it returns true and the next one returns false. -/
theorem C16_scenario (w : Nat) (hw : 60 < 2 ^ w) (pin inputMode : Nat) (junkLatch : Bool)
    (junkPeriodEnd junkStart : Nat) :
    (refreshStatus w
        (new pin ACKSEN_BUTTON_MODE_NORMAL 50 inputMode false 0
          junkLatch junkPeriodEnd junkStart) true 10).1 = false
      ∧ (getButtonState (refreshStatus w
          (new pin ACKSEN_BUTTON_MODE_NORMAL 50 inputMode false 0
            junkLatch junkPeriodEnd junkStart) true 10).2).1 = false
      ∧ (refreshStatus w (refreshStatus w
          (new pin ACKSEN_BUTTON_MODE_NORMAL 50 inputMode false 0
            junkLatch junkPeriodEnd junkStart) true 10).2 true 60).1 = true
      ∧ (getButtonState (refreshStatus w (refreshStatus w
          (new pin ACKSEN_BUTTON_MODE_NORMAL 50 inputMode false 0
            junkLatch junkPeriodEnd junkStart) true 10).2 true 60).2).1 = true
      ∧ (onPressed (refreshStatus w (refreshStatus w
          (new pin ACKSEN_BUTTON_MODE_NORMAL 50 inputMode false 0
            junkLatch junkPeriodEnd junkStart) true 10).2 true 60).2).1 = true
      ∧ (onPressed (onPressed (refreshStatus w (refreshStatus w
          (new pin ACKSEN_BUTTON_MODE_NORMAL 50 inputMode false 0
            junkLatch junkPeriodEnd junkStart) true 10).2 true 60).2).2).1 = false := by
  have h10 : wsub w 10 0 = 10 := wsub_zero_right w 10 (by omega)
  have h60 : wsub w 60 0 = 60 := wsub_zero_right w 60 hw
  generalize hb : new pin ACKSEN_BUTTON_MODE_NORMAL 50 inputMode false 0
    junkLatch junkPeriodEnd junkStart = b
  have hlevel : b.bDebouncedButtonState = false := by rw [← hb]; rfl
  have hlast : b.ulLastStatusUpdate_MS = 0 := by rw [← hb]; rfl
  have hD : b.ulDebounceInterval_MS = 50 := by rw [← hb]; rfl
  have hmode : b.uiButtonOperationMode = ACKSEN_BUTTON_MODE_NORMAL := by rw [← hb]; rfl
  have hno : (checkDebounceStatus w b true 10).1 = false := by
    have := (checkDebounceStatus_fst_iff w b true 10).not.2
      (fun hh => by rw [hlast, hD, h10] at hh; omega)
    simpa using this
  have hq := refreshStatus_quiet w b true 10 (Or.inl hmode) hno
  have hf := refreshStatus_frame_of_no_accept w b true 10 hno
  have hacc := refreshStatus_accepts w (refreshStatus w b true 10).2 true 60
    (by rw [hf.1, hlevel]; decide) (by rw [hf.2.1, hf.2.2.1, hlast, hD, h60]; omega)
  refine ⟨hq.1, by simp [getButtonState, hf.1, hlevel], hacc.1,
    by simp [getButtonState, hacc.2.1], ?_, ?_⟩
  · simp [onPressed, hacc.2.1, hacc.2.2.2.1]
  · exact query_twice Query.onPressed _

/-- C16 witness: the scenario on 32 bits. -/
theorem C16_scenario_witness :
    (refreshStatus 32 (new 2 ACKSEN_BUTTON_MODE_NORMAL 50 0 false 0 true 7 9) true 10).1 = false
      ∧ (refreshStatus 32 (refreshStatus 32
          (new 2 ACKSEN_BUTTON_MODE_NORMAL 50 0 false 0 true 7 9) true 10).2 true 60).1 = true :=
  let h := C16_scenario 32 (by decide) 2 0 true 7 9
  ⟨h.1, h.2.2.1⟩

/-- The two long-press flags after the tail of a refresh. -/
theorem refreshLongPress_flags (w : Nat) (s : AcksenButton) (now : Nat) :
    (refreshLongPress w s now).2.bLongPressRecorded =
        (s.bDebouncedButtonState
          && (s.bLongPressRecorded
            || (decide (s.uiButtonOperationMode = ACKSEN_BUTTON_MODE_LONGPRESS)
              && decide (s.ulLongPressInterval_MS ≤ wsub w now s.ulLastStatusUpdate_MS))))
      ∧ (refreshLongPress w s now).2.bLongPressProcessed =
        (s.bDebouncedButtonState
          && (s.bLongPressProcessed
            && !(decide (s.uiButtonOperationMode = ACKSEN_BUTTON_MODE_LONGPRESS)
              && !s.bLongPressRecorded
              && decide (s.ulLongPressInterval_MS ≤ wsub w now s.ulLastStatusUpdate_MS)))) := by
  by_cases hL : s.uiButtonOperationMode = ACKSEN_BUTTON_MODE_LONGPRESS <;>
  by_cases hb : s.bDebouncedButtonState = true <;>
  by_cases hr : s.bLongPressRecorded = true <;>
  by_cases ht : s.ulLongPressInterval_MS ≤ wsub w now s.ulLastStatusUpdate_MS <;>
  simp [refreshLongPress, hL, hb, hr, ht]

/-- A refresh that returns true leaves both long-press flags as they were. -/
theorem refreshStatus_true_flags (w : Nat) (s : AcksenButton) (raw : Bool) (now : Nat)
    (h : (refreshStatus w s raw now).1 = true) :
    (refreshStatus w s raw now).2.bLongPressRecorded = s.bLongPressRecorded
      ∧ (refreshStatus w s raw now).2.bLongPressProcessed = s.bLongPressProcessed := by
  by_cases hc : (checkDebounceStatus w s raw now).1 = true
  · have ht := checkDebounceStatus_of_true w s raw now hc
    rw [refreshStatus_of_accept w s raw now hc]
    exact ⟨ht.2.2.2.1, ht.2.2.2.2.1⟩
  · have hc : (checkDebounceStatus w s raw now).1 = false := by simpa using hc
    have hf := refreshLongPress_frame w s now
    rw [refreshStatus_of_no_accept w s raw now hc] at h ⊢
    split_ifs at h ⊢
    all_goals first
      | exact ⟨rfl, rfl⟩
      | (rw [hf.1] at h; exact absurd h (by decide))

/-- C19: in LongPress mode `refreshStatus` turns the recorded flag from false to
true exactly when no level change is accepted in this call, the debounced level
is pressed, recorded was false and `(now - lastChange) mod 2^w` has reached the
long-press interval; such a call clears processed, returns false and clears the
edge latch.  In every other mode a refresh never turns recorded to true, and in
every mode a refresh that returns true leaves both long-press flags unchanged. -/
theorem C19_long_press_recording (w : Nat) (s : AcksenButton) (raw : Bool) (now : Nat) :
    (s.uiButtonOperationMode = ACKSEN_BUTTON_MODE_LONGPRESS →
        (((refreshStatus w s raw now).2.bLongPressRecorded = true
            ∧ s.bLongPressRecorded = false) ↔
          ((checkDebounceStatus w s raw now).1 = false
            ∧ s.bDebouncedButtonState = true
            ∧ s.bLongPressRecorded = false
            ∧ s.ulLongPressInterval_MS ≤ wsub w now s.ulLastStatusUpdate_MS)))
      ∧ (s.uiButtonOperationMode = ACKSEN_BUTTON_MODE_LONGPRESS →
          (checkDebounceStatus w s raw now).1 = false →
          s.bDebouncedButtonState = true →
          s.bLongPressRecorded = false →
          s.ulLongPressInterval_MS ≤ wsub w now s.ulLastStatusUpdate_MS →
          (refreshStatus w s raw now).1 = false
            ∧ (refreshStatus w s raw now).2.bStateChangeRecorded = false
            ∧ (refreshStatus w s raw now).2.bLongPressRecorded = true
            ∧ (refreshStatus w s raw now).2.bLongPressProcessed = false)
      ∧ (s.uiButtonOperationMode ≠ ACKSEN_BUTTON_MODE_LONGPRESS →
          (refreshStatus w s raw now).2.bLongPressRecorded = true →
          s.bLongPressRecorded = true)
      ∧ ((refreshStatus w s raw now).1 = true →
          (refreshStatus w s raw now).2.bLongPressRecorded = s.bLongPressRecorded
            ∧ (refreshStatus w s raw now).2.bLongPressProcessed = s.bLongPressProcessed) := by
  have hfl := refreshLongPress_flags w s now
  have hfr := refreshLongPress_frame w s now
  refine ⟨?_, ?_, ?_, refreshStatus_true_flags w s raw now⟩
  · intro hL
    by_cases hc : (checkDebounceStatus w s raw now).1 = true
    · have ht := checkDebounceStatus_of_true w s raw now hc
      rw [refreshStatus_of_accept w s raw now hc]
      simp only [ht.2.2.2.1, hc]
      constructor
      · rintro ⟨h1, h2⟩; rw [h1] at h2; exact absurd h2 (by decide)
      · rintro ⟨h1, _⟩; exact absurd h1 (by decide)
    · have hc : (checkDebounceStatus w s raw now).1 = false := by simpa using hc
      rw [refreshStatus_of_no_accept w s raw now hc]
      by_cases hb : s.bDebouncedButtonState = true <;>
      by_cases hr : s.bLongPressRecorded = true <;>
      by_cases ht : s.ulLongPressInterval_MS ≤ wsub w now s.ulLastStatusUpdate_MS <;>
      simp [hL, hc, hb, hr, ht, hfl]
  · intro hL hc hb hr ht
    rw [refreshStatus_of_no_accept w s raw now hc]
    simp [hL, hb, hr, ht, hfl, hfr]
  · intro hL hrec
    by_cases hc : (checkDebounceStatus w s raw now).1 = true
    · have ht := checkDebounceStatus_of_true w s raw now hc
      rw [refreshStatus_of_accept w s raw now hc] at hrec
      exact ht.2.2.2.1 ▸ hrec
    · have hc : (checkDebounceStatus w s raw now).1 = false := by simpa using hc
      rw [refreshStatus_of_no_accept w s raw now hc] at hrec
      split_ifs at hrec
      all_goals first
        | exact hrec
        | (rw [hfl.1] at hrec; simp only [hL, decide_False, Bool.false_and, Bool.or_false,
            Bool.and_eq_true] at hrec; exact hrec.2)

/-- C19 witness: the sample button in LongPress mode, press accepted at time 60;
the refresh at time 2100 (2040 ms into the hold, interval 2000) records the long
press, returns false and clears the latch. -/
theorem C19_long_press_recording_witness :
    (refreshStatus 32
        (refreshStatus 32 (setButtonOperatingMode sampleButton 1) true 60).2 true 2100).1 = false
      ∧ (refreshStatus 32 (refreshStatus 32 (setButtonOperatingMode sampleButton 1)
          true 60).2 true 2100).2.bStateChangeRecorded = false
      ∧ (refreshStatus 32 (refreshStatus 32 (setButtonOperatingMode sampleButton 1)
          true 60).2 true 2100).2.bLongPressRecorded = true
      ∧ (refreshStatus 32 (refreshStatus 32 (setButtonOperatingMode sampleButton 1)
          true 60).2 true 2100).2.bLongPressProcessed = false :=
  (C19_long_press_recording 32
    (refreshStatus 32 (setButtonOperatingMode sampleButton 1) true 60).2 true 2100).2.1
    (by decide) (by decide) (by decide) (by decide) (by decide)

/-- A refresh keeps the relation "processed only if recorded". -/
theorem refreshStatus_processed_recorded (w : Nat) (s : AcksenButton) (raw : Bool) (now : Nat)
    (h : s.bLongPressProcessed = true → s.bLongPressRecorded = true) :
    (refreshStatus w s raw now).2.bLongPressProcessed = true →
      (refreshStatus w s raw now).2.bLongPressRecorded = true := by
  by_cases hc : (checkDebounceStatus w s raw now).1 = true
  · have ht := checkDebounceStatus_of_true w s raw now hc
    rw [refreshStatus_of_accept w s raw now hc]
    intro hp
    exact ht.2.2.2.1.trans (h (ht.2.2.2.2.1 ▸ hp))
  · have hc : (checkDebounceStatus w s raw now).1 = false := by simpa using hc
    have hfl := refreshLongPress_flags w s now
    rw [refreshStatus_of_no_accept w s raw now hc]
    split_ifs
    all_goals first
      | exact h
      | (rw [hfl.1, hfl.2]
         intro hp
         simp only [Bool.and_eq_true] at hp
         simp [hp.1, h hp.2.1])

/-- Every public member function keeps the relation "processed only if
recorded". -/
theorem exec_processed_recorded (w : Nat) (c : Call) (s : AcksenButton)
    (h : s.bLongPressProcessed = true → s.bLongPressRecorded = true) :
    (c.exec w s).bLongPressProcessed = true → (c.exec w s).bLongPressRecorded = true := by
  cases c with
  | refreshStatus raw now => exact refreshStatus_processed_recorded w s raw now h
  | onPressed =>
    by_cases h1 : s.bStateChangeRecorded = true <;>
    by_cases h2 : s.bDebouncedButtonState = true <;>
    simpa [Call.exec, onPressed, h1, h2] using h
  | onReleased =>
    by_cases h1 : s.bStateChangeRecorded = true <;>
    by_cases h2 : s.bDebouncedButtonState = true <;>
    simpa [Call.exec, onReleased, h1, h2] using h
  | onLongPress =>
    by_cases hL : s.uiButtonOperationMode = ACKSEN_BUTTON_MODE_LONGPRESS <;>
    by_cases h1 : s.bLongPressRecorded = true <;>
    by_cases h2 : s.bLongPressProcessed = true <;>
    simp_all [Call.exec, onLongPress]
  | _ => exact h

/-- C20: in every state reached from construction by any sequence of setters
(mode changes included), `refreshStatus` calls with arbitrary inputs and query
calls, the processed flag is true only if the recorded flag is true. -/
theorem C20_processed_only_if_recorded (w : Nat)
    (pin mode debounce inputMode : Nat) (raw : Bool) (now : Nat)
    (junkLatch : Bool) (junkPeriodEnd junkStart : Nat) (calls : List Call)
    (hp : (execAll w (new pin mode debounce inputMode raw now
      junkLatch junkPeriodEnd junkStart) calls).bLongPressProcessed = true) :
    (execAll w (new pin mode debounce inputMode raw now
      junkLatch junkPeriodEnd junkStart) calls).bLongPressRecorded = true := by
  have key : ∀ (cs : List Call) (s : AcksenButton),
      (s.bLongPressProcessed = true → s.bLongPressRecorded = true) →
      (execAll w s cs).bLongPressProcessed = true →
      (execAll w s cs).bLongPressRecorded = true := by
    intro cs
    induction cs with
    | nil => intro s h; exact h
    | cons c cs ih =>
      intro s h
      exact ih (c.exec w s) (exec_processed_recorded w c s h)
  exact key calls _ (fun h0 => absurd h0 (by simp [new, setDebounceInterval])) hp

/-- C20 witness: a LongPress button constructed at time 0, pressed at 100, held
to 2200 where the long press is recorded, then `onLongPress` sets processed. -/
theorem C20_processed_only_if_recorded_witness :
    (execAll 32 (new 2 ACKSEN_BUTTON_MODE_LONGPRESS 50 0 false 0 false 0 0)
      [Call.refreshStatus true 100, Call.refreshStatus true 2200,
        Call.onLongPress]).bLongPressProcessed = true
    ∧ (execAll 32 (new 2 ACKSEN_BUTTON_MODE_LONGPRESS 50 0 false 0 false 0 0)
      [Call.refreshStatus true 100, Call.refreshStatus true 2200,
        Call.onLongPress]).bLongPressRecorded = true :=
  ⟨by decide,
   C20_processed_only_if_recorded 32 2 ACKSEN_BUTTON_MODE_LONGPRESS 50 0 false 0 false 0 0
    [Call.refreshStatus true 100, Call.refreshStatus true 2200, Call.onLongPress]
    (by decide)⟩

/-- While a button in Repeat mode is held with the latch consumed, the polling
loop reports exactly the events of the specification's repeat timing, counted
from the stored repeat-period end. -/
theorem holdPolls_repeat (w : Nat) (ts : List Nat) :
    ∀ h : AcksenButton,
      h.uiButtonOperationMode = ACKSEN_BUTTON_MODE_REPEAT →
      h.bDebouncedButtonState = true →
      (∀ t ∈ ts, t + h.ulRepeatPressesInterval_MS < 2 ^ w) →
      holdPolls w h ts
        = specRepeatEvents h.ulRepeatPressesInterval_MS h.ulRepeatPressesPeriodEnd ts := by
  induction ts with
  | nil => intro h _ _ _; rfl
  | cons t ts ih =>
    intro h hmode hlevel hts
    have ht := hts t (List.mem_cons_self t ts)
    have hrest : ∀ u ∈ ts, u + h.ulRepeatPressesInterval_MS < 2 ^ w :=
      fun u hu => hts u (List.mem_cons_of_mem t hu)
    have hno : (checkDebounceStatus w h true t).1 = false := by
      have := (checkDebounceStatus_fst_iff w h true t).not.2 (fun hh => hh.1 hlevel)
      simpa using this
    have hstep := refreshStatus_of_no_accept w h true t hno
    by_cases hdue : h.ulRepeatPressesPeriodEnd ≤ t
    · rw [if_pos ⟨hlevel, hmode, hdue⟩] at hstep
      simp only [holdPolls, specRepeatEvents, hstep, if_pos hdue]
      have hp : onPressed { h with
          ulRepeatPressesPeriodEnd := wadd w t h.ulRepeatPressesInterval_MS,
          bStateChangeRecorded := true }
          = (true, { h with
              ulRepeatPressesPeriodEnd := wadd w t h.ulRepeatPressesInterval_MS,
              bStateChangeRecorded := false }) := by
        simp [onPressed, hlevel]
      rw [hp]
      have hw : wadd w t h.ulRepeatPressesInterval_MS = t + h.ulRepeatPressesInterval_MS :=
        Nat.mod_eq_of_lt ht
      have := ih { h with
          ulRepeatPressesPeriodEnd := wadd w t h.ulRepeatPressesInterval_MS,
          bStateChangeRecorded := false } hmode hlevel hrest
      simp only [hw] at this ⊢
      rw [this]
    · have hR : ¬ (h.bDebouncedButtonState = true
          ∧ h.uiButtonOperationMode = ACKSEN_BUTTON_MODE_REPEAT
          ∧ h.ulRepeatPressesPeriodEnd ≤ t) := fun hh => hdue hh.2.2
      have hA : ¬ (h.bDebouncedButtonState = true
          ∧ h.uiButtonOperationMode = ACKSEN_BUTTON_MODE_ACCELERATE
          ∧ h.ulRepeatPressesPeriodEnd ≤ t) := fun hh => hdue hh.2.2
      rw [if_neg hR, if_neg hA] at hstep
      have hwr := refreshLongPress_writes w h t
      have hp : onPressed (refreshLongPress w h t).2 = (false, (refreshLongPress w h t).2) := by
        rw [hwr]; simp [onPressed]
      simp only [holdPolls, specRepeatEvents, hstep, if_neg hdue, hp]
      have := ih (refreshLongPress w h t).2
        (by rw [hwr]; exact hmode) (by rw [hwr]; exact hlevel) (by rw [hwr]; exact hrest)
      rw [this, hwr]

/-- C12: in Repeat mode with repeat interval `R` and initial offset `O`, for a
press accepted at the poll at time `t0` and any later polls at which the raw
level still reads pressed, each poll being `refreshStatus` followed by one
`onPressed` call, and with no sum `t0 + O`, `t + R` reaching `2^w`:
`onPressed` returns true at the accepting poll, next at the first poll at or
after `t0 + O`, and after an event at poll time `t` next at the first poll at or
after `t + R`; it returns false at every other poll. -/
theorem C12_repeat_hold (w : Nat) (s : AcksenButton) (t0 : Nat) (ts : List Nat)
    (hmode : s.uiButtonOperationMode = ACKSEN_BUTTON_MODE_REPEAT)
    (hrel : s.bDebouncedButtonState = false)
    (hD : s.ulDebounceInterval_MS ≤ wsub w t0 s.ulLastStatusUpdate_MS)
    (hO : t0 + s.ulRepeatInitialOffsetDelay_MS < 2 ^ w)
    (hR : ∀ t ∈ ts, t + s.ulRepeatPressesInterval_MS < 2 ^ w) :
    holdPolls w s (t0 :: ts)
      = true :: specRepeatEvents s.ulRepeatPressesInterval_MS
          (t0 + s.ulRepeatInitialOffsetDelay_MS) ts := by
  have hacc : refreshStatus w s true t0
      = (true, { s with
          ulLastStatusUpdate_MS := t0,
          bDebouncedButtonState := true,
          ulRepeatPressesPeriodEnd := wadd w t0 s.ulRepeatInitialOffsetDelay_MS,
          bStateChangeRecorded := true }) := by
    simp [refreshStatus, checkDebounceStatus, hmode, hrel, hD]
  have hp : onPressed { s with
        ulLastStatusUpdate_MS := t0,
        bDebouncedButtonState := true,
        ulRepeatPressesPeriodEnd := wadd w t0 s.ulRepeatInitialOffsetDelay_MS,
        bStateChangeRecorded := true }
      = (true, { s with
        ulLastStatusUpdate_MS := t0,
        bDebouncedButtonState := true,
        ulRepeatPressesPeriodEnd := wadd w t0 s.ulRepeatInitialOffsetDelay_MS,
        bStateChangeRecorded := false }) := by
    simp [onPressed]
  have hw : wadd w t0 s.ulRepeatInitialOffsetDelay_MS = t0 + s.ulRepeatInitialOffsetDelay_MS :=
    Nat.mod_eq_of_lt hO
  simp only [holdPolls, hacc, hp]
  have := holdPolls_repeat w ts { s with
        ulLastStatusUpdate_MS := t0,
        bDebouncedButtonState := true,
        ulRepeatPressesPeriodEnd := wadd w t0 s.ulRepeatInitialOffsetDelay_MS,
        bStateChangeRecorded := false } hmode rfl hR
  rw [this]
  simp only [hw]

/-- C12 witness: Repeat mode with `O = 1500` and `R = 500`; press accepted at
60, polls every 400 ms: events at 60, at 1660 (first poll at or after 1560), at
2460 (first poll at or after 2160) and at 3260 (first poll at or after 2960). -/
theorem C12_repeat_hold_witness :
    holdPolls 32 sampleRepeatButton [60, 460, 860, 1260, 1660, 2060, 2460, 2860, 3260]
      = [true, false, false, false, true, false, true, false, true] :=
  (C12_repeat_hold 32 sampleRepeatButton 60 [460, 860, 1260, 1660, 2060, 2460, 2860, 3260]
    (by decide) (by decide) (by decide) (by decide) (by decide)).trans (by decide)

/-- The specification's repeat timing, unfolded once: the polls before `due`
report nothing, the first poll at or after `due` reports the event, and the next
event is due one interval after that poll. -/
theorem specRepeatEvents_first_due (R due t : Nat) (early rest : List Nat)
    (hearly : ∀ u ∈ early, u < due) (ht : due ≤ t) :
    specRepeatEvents R due (early ++ t :: rest)
      = List.replicate early.length false ++ true :: specRepeatEvents R (t + R) rest := by
  induction early with
  | nil => simp [specRepeatEvents, ht]
  | cons u us ih =>
    have hu : ¬ due ≤ u := Nat.not_le.2 (hearly u (List.mem_cons_self u us))
    have := ih (fun v hv => hearly v (List.mem_cons_of_mem u hv))
    simp [specRepeatEvents, hu, this, List.replicate_succ]

/-- In LongPress mode a refresh that accepts no level change while the button
is pressed returns false and only updates the long-press flags and the latch. -/
theorem refreshStatus_long_press_hold (w : Nat) (h : AcksenButton) (raw : Bool) (now : Nat)
    (hmode : h.uiButtonOperationMode = ACKSEN_BUTTON_MODE_LONGPRESS)
    (hlevel : h.bDebouncedButtonState = true)
    (hno : (checkDebounceStatus w h raw now).1 = false) :
    refreshStatus w h raw now =
      (false, { h with
        bStateChangeRecorded := false,
        bLongPressRecorded := h.bLongPressRecorded
          || decide (h.ulLongPressInterval_MS ≤ wsub w now h.ulLastStatusUpdate_MS),
        bLongPressProcessed := h.bLongPressProcessed
          && !(!h.bLongPressRecorded
            && decide (h.ulLongPressInterval_MS ≤ wsub w now h.ulLastStatusUpdate_MS)) }) := by
  rw [refreshStatus_of_no_accept w h raw now hno]
  by_cases hr : h.bLongPressRecorded = true <;>
  by_cases ht : h.ulLongPressInterval_MS ≤ wsub w now h.ulLastStatusUpdate_MS <;>
  simp [refreshLongPress, hmode, hlevel, hr, ht]

/-- While a button in LongPress mode is held, the values returned by refreshes
and `onLongPress` calls are those of the specification's long-press delivery,
started from the flags of the object. -/
theorem callOps_long_press_hold (w : Nat) (ops : List Op) :
    ∀ h : AcksenButton,
      h.uiButtonOperationMode = ACKSEN_BUTTON_MODE_LONGPRESS →
      h.bDebouncedButtonState = true →
      (∀ op ∈ ops, op = Op.query Query.onLongPress ∨ ∃ r n, op = Op.refresh r n) →
      acceptsNone w h ops = true →
      callOps w h ops
        = specLongPressEvents w h.ulLastStatusUpdate_MS h.ulLongPressInterval_MS
            h.bLongPressRecorded (h.bLongPressRecorded && h.bLongPressProcessed) ops := by
  induction ops with
  | nil => intro h _ _ _ _; rfl
  | cons op ops ih =>
    intro h hmode hlevel hops hacc
    have hop := hops op (List.mem_cons_self op ops)
    have hrest : ∀ o ∈ ops, o = Op.query Query.onLongPress ∨ ∃ r n, o = Op.refresh r n :=
      fun o ho => hops o (List.mem_cons_of_mem op ho)
    rcases hop with rfl | ⟨r, n, rfl⟩
    · by_cases hr : h.bLongPressRecorded = true <;>
      by_cases hp : h.bLongPressProcessed = true
      · have hq : onLongPress h = (false, h) := by simp [onLongPress, hmode, hr, hp]
        simp only [acceptsNone, Query.call, hq] at hacc
        simp only [callOps, Op.call, Query.call, hq, specLongPressEvents]
        rw [ih h hmode hlevel hrest hacc]
        simp [hr, hp]
      · have hq : onLongPress h = (true, { h with bLongPressProcessed := true }) := by
          simp [onLongPress, hmode, hr, hp]
        simp only [acceptsNone, Query.call, hq] at hacc
        simp only [callOps, Op.call, Query.call, hq, specLongPressEvents]
        rw [ih { h with bLongPressProcessed := true } hmode hlevel hrest hacc]
        simp [hr, hp]
      · have hq : onLongPress h = (false, h) := by simp [onLongPress, hmode, hr]
        simp only [acceptsNone, Query.call, hq] at hacc
        simp only [callOps, Op.call, Query.call, hq, specLongPressEvents]
        rw [ih h hmode hlevel hrest hacc]
        simp [hr]
      · have hq : onLongPress h = (false, h) := by simp [onLongPress, hmode, hr]
        simp only [acceptsNone, Query.call, hq] at hacc
        simp only [callOps, Op.call, Query.call, hq, specLongPressEvents]
        rw [ih h hmode hlevel hrest hacc]
        simp [hr]
    · simp only [acceptsNone, Bool.and_eq_true, Bool.not_eq_true'] at hacc
      have hstep := refreshStatus_long_press_hold w h r n hmode hlevel hacc.1
      have hnext := ih (refreshStatus w h r n).2 (by rw [hstep]; exact hmode)
        (by rw [hstep]; exact hlevel) hrest hacc.2
      simp only [callOps, Op.call, specLongPressEvents]
      rw [hnext, hstep]
      by_cases hr : h.bLongPressRecorded = true <;>
      by_cases hp : h.bLongPressProcessed = true <;>
      by_cases ht : h.ulLongPressInterval_MS ≤ wsub w n h.ulLastStatusUpdate_MS <;>
      simp [hr, hp, ht]

/-- The specification's long-press delivery reports at most one event, and
none once the event has been delivered. -/
theorem specLongPressEvents_count (w t0 L : Nat) (ops : List Op) :
    ∀ armed delivered : Bool,
      (specLongPressEvents w t0 L armed delivered ops).count true
        ≤ (if delivered = true then 0 else 1) := by
  induction ops with
  | nil => intro a d; simp [specLongPressEvents]
  | cons op ops ih =>
    intro a d
    cases op with
    | refresh r n =>
      have := ih (a || decide (L ≤ wsub w n t0)) d
      simpa [specLongPressEvents] using this
    | query q =>
      have := ih a (d || a)
      cases a <;> cases d <;> simp_all [specLongPressEvents]

/-- In LongPress mode an accepted level change writes the level, the
last-change timestamp and the latch, and nothing else. -/
theorem refreshStatus_accept_long_press (w : Nat) (s : AcksenButton) (raw : Bool) (now : Nat)
    (hmode : s.uiButtonOperationMode = ACKSEN_BUTTON_MODE_LONGPRESS)
    (hne : s.bDebouncedButtonState ≠ raw)
    (hD : s.ulDebounceInterval_MS ≤ wsub w now s.ulLastStatusUpdate_MS) :
    refreshStatus w s raw now =
      (true, { s with
        ulLastStatusUpdate_MS := now,
        bDebouncedButtonState := raw,
        bStateChangeRecorded := true }) := by
  simp [refreshStatus, checkDebounceStatus, hmode, hne, hD]

/-- The long-press delivery of a hold that starts with the recorded flag clear
when the press is accepted. -/
theorem long_press_after_clean_press (w : Nat) (s : AcksenButton) (t0 : Nat) (ops : List Op)
    (hmode : s.uiButtonOperationMode = ACKSEN_BUTTON_MODE_LONGPRESS)
    (hrel : s.bDebouncedButtonState = false)
    (hrec : s.bLongPressRecorded = false)
    (hD : s.ulDebounceInterval_MS ≤ wsub w t0 s.ulLastStatusUpdate_MS)
    (hops : ∀ op ∈ ops, op = Op.query Query.onLongPress ∨ ∃ r n, op = Op.refresh r n)
    (hno : acceptsNone w (refreshStatus w s true t0).2 ops = true) :
    callOps w (refreshStatus w s true t0).2 ops
      = specLongPressEvents w t0 s.ulLongPressInterval_MS false false ops := by
  have hacc := refreshStatus_accept_long_press w s true t0 hmode (by simp [hrel]) hD
  have := callOps_long_press_hold w ops (refreshStatus w s true t0).2
    (by rw [hacc]; exact hmode) (by rw [hacc]) hops hno
  rw [this, hacc]
  simp [hrec]

/-- One call keeps the relation "unless the latest refresh accepted a release,
a released button has its recorded flag clear". -/
theorem exec_release_clear (w : Nat) (c : Call) (s : AcksenButton) (b : Bool)
    (h : b = false → s.bDebouncedButtonState = false → s.bLongPressRecorded = false) :
    c.justReleased w s b = false → (c.exec w s).bDebouncedButtonState = false →
      (c.exec w s).bLongPressRecorded = false := by
  cases c with
  | refreshStatus raw now =>
    intro hb hlevel
    simp only [Call.exec] at hlevel ⊢
    simp only [Call.justReleased] at hb
    by_cases hc : (checkDebounceStatus w s raw now).1 = true
    · have hraw : raw = true := by simpa [hc] using hb
      have ht := checkDebounceStatus_of_true w s raw now hc
      rw [refreshStatus_of_accept w s raw now hc] at hlevel
      have hl : (checkDebounceStatus w s raw now).2.bDebouncedButtonState = false := hlevel
      rw [ht.1, hraw] at hl
      exact absurd hl (by decide)
    · have hc : (checkDebounceStatus w s raw now).1 = false := by simpa using hc
      have hf := refreshStatus_frame_of_no_accept w s raw now hc
      have hs : s.bDebouncedButtonState = false := hf.1 ▸ hlevel
      have hfl := refreshLongPress_flags w s now
      rw [refreshStatus_of_no_accept w s raw now hc]
      simp [hs, hfl.1]
  | onPressed =>
    by_cases h1 : s.bStateChangeRecorded = true <;>
    by_cases h2 : s.bDebouncedButtonState = true <;>
    first
      | (simp [Call.exec, Call.justReleased, onPressed, h1, h2]; done)
      | (simpa [Call.exec, Call.justReleased, onPressed, h1, h2] using h)
  | onReleased =>
    by_cases h1 : s.bStateChangeRecorded = true <;>
    by_cases h2 : s.bDebouncedButtonState = true <;>
    first
      | (simp [Call.exec, Call.justReleased, onReleased, h1, h2]; done)
      | (simpa [Call.exec, Call.justReleased, onReleased, h1, h2] using h)
  | onLongPress =>
    by_cases hL : s.uiButtonOperationMode = ACKSEN_BUTTON_MODE_LONGPRESS <;>
    by_cases h1 : s.bLongPressRecorded = true <;>
    by_cases h2 : s.bLongPressProcessed = true <;>
    first
      | (simp [Call.exec, Call.justReleased, onLongPress, hL, h1, h2]; done)
      | (simpa [Call.exec, Call.justReleased, onLongPress, hL, h1, h2] using h)
  | _ => exact h

/-- In every state reached from construction by public calls, a released button
has its recorded flag clear, unless the latest refresh is the one that accepted
the release: stale long-press flags at a press arise only when no refresh comes
between the accepted release and the accepted press. -/
theorem released_recorded_clear (w : Nat)
    (pin mode debounce inputMode : Nat) (raw : Bool) (now : Nat)
    (junkLatch : Bool) (junkPeriodEnd junkStart : Nat) (calls : List Call)
    (hends : endsJustReleased w (new pin mode debounce inputMode raw now
      junkLatch junkPeriodEnd junkStart) calls false = false)
    (hrel : (execAll w (new pin mode debounce inputMode raw now
      junkLatch junkPeriodEnd junkStart) calls).bDebouncedButtonState = false) :
    (execAll w (new pin mode debounce inputMode raw now
      junkLatch junkPeriodEnd junkStart) calls).bLongPressRecorded = false := by
  have key : ∀ (cs : List Call) (s : AcksenButton) (b : Bool),
      (b = false → s.bDebouncedButtonState = false → s.bLongPressRecorded = false) →
      endsJustReleased w s cs b = false →
      (execAll w s cs).bDebouncedButtonState = false →
      (execAll w s cs).bLongPressRecorded = false := by
    intro cs
    induction cs with
    | nil => intro s b h hb hl; exact h hb hl
    | cons c cs ih =>
      intro s b h hb hl
      exact ih (c.exec w s) (c.justReleased w s b) (exec_release_clear w c s b h) hb hl
  exact key calls _ false (fun _ _ => rfl) hends hrel

/-- C13: exactly-once delivery of the long press.  In LongPress mode with
long-press interval `L`:
(1) for a press accepted at time `t0` while the recorded flag is clear, and any
following sequence of refreshes accepting no level change and `onLongPress`
calls, the returned values are those of the specification's delivery: every
refresh returns false, and `onLongPress` returns true at the first call that
comes after a refresh at a time with `(now - t0) mod 2^w ≥ L`, and false at
every other call, hence at most once; (2) after a release is accepted, a
further refresh accepts nothing, and a press is accepted again at `t3`, the
same holds for the new hold, whatever the long-press flags were before;
(3) the same holds for a press accepted in any state reached from construction
by any sequence of public calls, provided the latest refresh before the press is
not one that accepted a release (the release is followed by a further
refresh). -/
theorem C13_long_press_once (w : Nat) :
    (∀ (s : AcksenButton) (t0 : Nat) (ops : List Op),
        s.uiButtonOperationMode = ACKSEN_BUTTON_MODE_LONGPRESS →
        s.bDebouncedButtonState = false →
        s.bLongPressRecorded = false →
        s.ulDebounceInterval_MS ≤ wsub w t0 s.ulLastStatusUpdate_MS →
        (∀ op ∈ ops, op = Op.query Query.onLongPress ∨ ∃ r n, op = Op.refresh r n) →
        acceptsNone w (refreshStatus w s true t0).2 ops = true →
        callOps w (refreshStatus w s true t0).2 ops
            = specLongPressEvents w t0 s.ulLongPressInterval_MS false false ops
          ∧ (callOps w (refreshStatus w s true t0).2 ops).count true ≤ 1)
      ∧ (∀ (s : AcksenButton) (t1 : Nat) (raw2 : Bool) (t2 t3 : Nat) (ops : List Op),
        s.uiButtonOperationMode = ACKSEN_BUTTON_MODE_LONGPRESS →
        s.bDebouncedButtonState = true →
        s.ulDebounceInterval_MS ≤ wsub w t1 s.ulLastStatusUpdate_MS →
        (checkDebounceStatus w (refreshStatus w s false t1).2 raw2 t2).1 = false →
        s.ulDebounceInterval_MS ≤ wsub w t3 t1 →
        (∀ op ∈ ops, op = Op.query Query.onLongPress ∨ ∃ r n, op = Op.refresh r n) →
        acceptsNone w (refreshStatus w (refreshStatus w
          (refreshStatus w s false t1).2 raw2 t2).2 true t3).2 ops = true →
        callOps w (refreshStatus w (refreshStatus w
            (refreshStatus w s false t1).2 raw2 t2).2 true t3).2 ops
            = specLongPressEvents w t3 s.ulLongPressInterval_MS false false ops
          ∧ (callOps w (refreshStatus w (refreshStatus w
              (refreshStatus w s false t1).2 raw2 t2).2 true t3).2 ops).count true ≤ 1)
      ∧ (∀ (pin mode debounce inputMode : Nat) (raw : Bool) (now : Nat)
          (junkLatch : Bool) (junkPeriodEnd junkStart : Nat) (calls : List Call)
          (t0 : Nat) (ops : List Op),
        endsJustReleased w (new pin mode debounce inputMode raw now
          junkLatch junkPeriodEnd junkStart) calls false = false →
        (execAll w (new pin mode debounce inputMode raw now
          junkLatch junkPeriodEnd junkStart) calls).uiButtonOperationMode
            = ACKSEN_BUTTON_MODE_LONGPRESS →
        (execAll w (new pin mode debounce inputMode raw now
          junkLatch junkPeriodEnd junkStart) calls).bDebouncedButtonState = false →
        (execAll w (new pin mode debounce inputMode raw now
          junkLatch junkPeriodEnd junkStart) calls).ulDebounceInterval_MS
            ≤ wsub w t0 (execAll w (new pin mode debounce inputMode raw now
              junkLatch junkPeriodEnd junkStart) calls).ulLastStatusUpdate_MS →
        (∀ op ∈ ops, op = Op.query Query.onLongPress ∨ ∃ r n, op = Op.refresh r n) →
        acceptsNone w (refreshStatus w (execAll w (new pin mode debounce inputMode raw now
          junkLatch junkPeriodEnd junkStart) calls) true t0).2 ops = true →
        callOps w (refreshStatus w (execAll w (new pin mode debounce inputMode raw now
            junkLatch junkPeriodEnd junkStart) calls) true t0).2 ops
            = specLongPressEvents w t0 (execAll w (new pin mode debounce inputMode raw now
                junkLatch junkPeriodEnd junkStart) calls).ulLongPressInterval_MS
                false false ops
          ∧ (callOps w (refreshStatus w (execAll w (new pin mode debounce inputMode raw now
              junkLatch junkPeriodEnd junkStart) calls) true t0).2 ops).count true ≤ 1) := by
  refine ⟨?_, ?_, ?_⟩
  rotate_left 2
  · intro pin mode debounce inputMode raw now junkLatch junkPeriodEnd junkStart calls t0 ops
      hends hmode hrel hD hops hno
    have hrec := released_recorded_clear w pin mode debounce inputMode raw now
      junkLatch junkPeriodEnd junkStart calls hends hrel
    have h := long_press_after_clean_press w _ t0 ops hmode hrel hrec hD hops hno
    refine ⟨h, ?_⟩
    rw [h]
    simpa using specLongPressEvents_count w t0 _ ops false false
  · intro s t0 ops hmode hrel hrec hD hops hno
    have h := long_press_after_clean_press w s t0 ops hmode hrel hrec hD hops hno
    refine ⟨h, ?_⟩
    rw [h]
    simpa using specLongPressEvents_count w t0 s.ulLongPressInterval_MS ops false false
  · intro s t1 raw2 t2 t3 ops hmode hlevel hD1 hno2 hD3 hops hno
    have h1 := refreshStatus_accept_long_press w s false t1 hmode (by simp [hlevel]) hD1
    rw [h1] at hno2 hno ⊢
    have h2 := refreshStatus_of_no_accept w _ raw2 t2 hno2
    simp only [Bool.false_eq_true, false_and, if_false] at h2
    have h2w : ∀ r, r = refreshLongPress w { s with
          ulLastStatusUpdate_MS := t1,
          bDebouncedButtonState := false,
          bStateChangeRecorded := true } t2 →
        r.2.uiButtonOperationMode = ACKSEN_BUTTON_MODE_LONGPRESS
          ∧ r.2.bDebouncedButtonState = false
          ∧ r.2.bLongPressRecorded = false
          ∧ r.2.ulDebounceInterval_MS = s.ulDebounceInterval_MS
          ∧ r.2.ulLastStatusUpdate_MS = t1
          ∧ r.2.ulLongPressInterval_MS = s.ulLongPressInterval_MS := by
      intro r hr
      rw [hr]
      simp [refreshLongPress, hmode]
    have hf := h2w _ h2
    have h := long_press_after_clean_press w _ t3 ops hf.1 hf.2.1 hf.2.2.1
      (by rw [hf.2.2.2.1, hf.2.2.2.2.1]; exact hD3) hops hno
    rw [hf.2.2.2.2.2] at h
    refine ⟨h, ?_⟩
    rw [h]
    simpa using specLongPressEvents_count w t3 s.ulLongPressInterval_MS ops false false

/-- The one scenario in which a press is accepted with stale long-press flags:
the button of `releasedAfterLongPress` is pressed again at the very next
refresh, with no refresh between the accepted release and the accepted press
(`t0 = 2400`).  The refresh at 4500 comes 2100 ms into the hold (interval 2000)
and accepts nothing, and the `onLongPress` call after it returns false: the
refresh that accepted the release returned before the long-press reset, so the
flags of the earlier hold are still set. -/
theorem stale_flags_suppress_long_press :
    releasedAfterLongPress.uiButtonOperationMode = ACKSEN_BUTTON_MODE_LONGPRESS
      ∧ releasedAfterLongPress.bDebouncedButtonState = false
      ∧ releasedAfterLongPress.ulDebounceInterval_MS
          ≤ wsub 32 2400 releasedAfterLongPress.ulLastStatusUpdate_MS
      ∧ acceptsNone 32 (refreshStatus 32 releasedAfterLongPress true 2400).2
          [Op.refresh true 4500, Op.query Query.onLongPress] = true
      ∧ releasedAfterLongPress.ulLongPressInterval_MS ≤ wsub 32 4500 2400
      ∧ callOps 32 (refreshStatus 32 releasedAfterLongPress true 2400).2
          [Op.refresh true 4500, Op.query Query.onLongPress] = [false, false] := by
  decide

/-- In the scenario of `stale_flags_suppress_long_press` the latest refresh
before the new press is the one that accepted the release. -/
theorem releasedAfterLongPress_just_released :
    endsJustReleased 32 (new 2 ACKSEN_BUTTON_MODE_LONGPRESS 50 0 false 0 false 0 0)
      [Call.refreshStatus true 100, Call.refreshStatus true 2200, Call.onLongPress,
        Call.refreshStatus false 2300] false = true := by
  decide

/-- C13 witness: the sample button in LongPress mode, press accepted at 60;
`onLongPress` returns true only at the first call after the refresh at 2100.
And the button of `stale_flags_suppress_long_press` with one further refresh
(at 2350) between the release and the new press at 2400: the long press of the
second hold is delivered. -/
theorem C13_long_press_once_witness :
    callOps 32 (refreshStatus 32 (setButtonOperatingMode sampleButton 1) true 60).2
        [Op.query Query.onLongPress, Op.refresh true 1000, Op.query Query.onLongPress,
          Op.refresh true 2100, Op.query Query.onLongPress, Op.query Query.onLongPress,
          Op.refresh true 3000, Op.query Query.onLongPress]
      = [false, false, false, false, true, false, false, false]
    ∧ callOps 32 (refreshStatus 32
        (execAll 32 (new 2 ACKSEN_BUTTON_MODE_LONGPRESS 50 0 false 0 false 0 0)
          [Call.refreshStatus true 100, Call.refreshStatus true 2200, Call.onLongPress,
            Call.refreshStatus false 2300, Call.refreshStatus false 2350]) true 2400).2
        [Op.refresh true 4500, Op.query Query.onLongPress, Op.query Query.onLongPress]
      = [false, true, false] :=
  ⟨(((C13_long_press_once 32).1 (setButtonOperatingMode sampleButton 1) 60
      [Op.query Query.onLongPress, Op.refresh true 1000, Op.query Query.onLongPress,
        Op.refresh true 2100, Op.query Query.onLongPress, Op.query Query.onLongPress,
        Op.refresh true 3000, Op.query Query.onLongPress]
      (by decide) (by decide) (by decide) (by decide) (by simp) (by decide)).1).trans
    (by decide),
   (((C13_long_press_once 32).2.2 2 ACKSEN_BUTTON_MODE_LONGPRESS 50 0 false 0 false 0 0
      [Call.refreshStatus true 100, Call.refreshStatus true 2200, Call.onLongPress,
        Call.refreshStatus false 2300, Call.refreshStatus false 2350] 2400
      [Op.refresh true 4500, Op.query Query.onLongPress, Op.query Query.onLongPress]
      (by decide) (by decide) (by decide) (by decide) (by simp) (by decide)).1).trans
    (by decide)⟩

/-- C14, the code at the failing input: a LongPress button constructed at time 0
with the pin low, pressed at 100, held to 2200 (long press recorded), and
released at 2300.  The refresh that accepts the release returns before the
long-press reset, so the debounced level is released while recorded is still
true, and `onLongPress` returns true although the button is not pressed. -/
theorem C14_flags_survive_release :
    (execAll 32 (new 2 ACKSEN_BUTTON_MODE_LONGPRESS 50 0 false 0 false 0 0)
        [Call.refreshStatus true 100, Call.refreshStatus true 2200,
          Call.refreshStatus false 2300]).bDebouncedButtonState = false
      ∧ (execAll 32 (new 2 ACKSEN_BUTTON_MODE_LONGPRESS 50 0 false 0 false 0 0)
        [Call.refreshStatus true 100, Call.refreshStatus true 2200,
          Call.refreshStatus false 2300]).bLongPressRecorded = true
      ∧ (onLongPress (execAll 32 (new 2 ACKSEN_BUTTON_MODE_LONGPRESS 50 0 false 0 false 0 0)
        [Call.refreshStatus true 100, Call.refreshStatus true 2200,
          Call.refreshStatus false 2300])).1 = true := by
  decide

/-- The elapsed-time tests built on wrapping subtraction do not see a common
shift of both timestamps. -/
theorem wsub_wadd_shift (w a b k : Nat) : wsub w (wadd w a k) (wadd w b k) = wsub w a b := by
  have h : ((wsub w (wadd w a k) (wadd w b k) : Nat) : Int) = ((wsub w a b : Nat) : Int) := by
    rw [wsub_eq_emod, wsub_eq_emod]
    unfold wadd
    push_cast
    rw [Int.sub_emod, Int.emod_emod, Int.emod_emod, ← Int.sub_emod]
    congr 1
    ring
  exact_mod_cast h

/-- C15, the code at the failing input.  Repeat mode, press accepted at time
1000, so that repeat-period-end is 2500: the refresh at 1100 returns false.
With `now` and every stored timestamp advanced by `k = 2^32 - 2000`, the stored
repeat-period-end wraps to 500 while `now` is 4294966396, the plain comparison
`millis() >= ulRepeatPressesPeriodEnd` holds and the refresh returns true.  The
same happens on a run of the code itself: a press accepted at 4294966296 seeds
repeat-period-end 500, and the refresh 100 ms later fires a repeat. -/
theorem C15_repeat_period_not_wrap_safe :
    (refreshStatus 32 (refreshStatus 32 sampleRepeatButton true 1000).2 true 1100).1 = false
      ∧ (refreshStatus 32
          (shiftTime 32 4294965296 (refreshStatus 32 sampleRepeatButton true 1000).2)
          true (wadd 32 1100 4294965296)).1 = true
      ∧ (refreshStatus 32
          (refreshStatus 32 (shiftTime 32 4294965296 sampleRepeatButton)
            true 4294966296).2 true 4294966396).1 = true := by
  decide

/-- The two repeat timers after an accepted level change, whichever the new
level: repeat-period-end is seeded in Repeat and Accelerate mode, hold-start in
Accelerate mode, and neither is written in any other mode. -/
theorem refreshStatus_accept_timers (w : Nat) (s : AcksenButton) (raw : Bool) (now : Nat)
    (hne : raw ≠ s.bDebouncedButtonState)
    (hD : s.ulDebounceInterval_MS ≤ wsub w now s.ulLastStatusUpdate_MS) :
    (refreshStatus w s raw now).2.ulRepeatPressesPeriodEnd =
        (if s.uiButtonOperationMode = ACKSEN_BUTTON_MODE_REPEAT
            ∨ s.uiButtonOperationMode = ACKSEN_BUTTON_MODE_ACCELERATE
          then (now + s.ulRepeatInitialOffsetDelay_MS) % 2 ^ w
          else s.ulRepeatPressesPeriodEnd)
      ∧ (refreshStatus w s raw now).2.ulButtonOperationStart =
        (if s.uiButtonOperationMode = ACKSEN_BUTTON_MODE_ACCELERATE then now
          else s.ulButtonOperationStart) := by
  have hne2 : ¬ s.bDebouncedButtonState = raw := fun h => hne h.symm
  by_cases hA : s.uiButtonOperationMode = ACKSEN_BUTTON_MODE_ACCELERATE <;>
  by_cases hR : s.uiButtonOperationMode = ACKSEN_BUTTON_MODE_REPEAT <;>
  simp [refreshStatus, checkDebounceStatus, hA, hR, hne2, hD, wadd]

/-- C21: when `refreshStatus` accepts a released-to-pressed transition at time
`now`: in Repeat mode repeat-period-end becomes
`(now + repeat initial offset) mod 2^w` and hold-start is unchanged; in
Accelerate mode repeat-period-end becomes the same value and hold-start becomes
`now`; in Normal and LongPress modes both timestamps are unchanged. -/
theorem C21_press_seeds_timers (w : Nat) (s : AcksenButton) (now : Nat)
    (hrel : s.bDebouncedButtonState = false)
    (hD : s.ulDebounceInterval_MS ≤ wsub w now s.ulLastStatusUpdate_MS) :
    (refreshStatus w s true now).2.bDebouncedButtonState = true
      ∧ (s.uiButtonOperationMode = ACKSEN_BUTTON_MODE_REPEAT →
          (refreshStatus w s true now).2.ulRepeatPressesPeriodEnd
              = (now + s.ulRepeatInitialOffsetDelay_MS) % 2 ^ w
            ∧ (refreshStatus w s true now).2.ulButtonOperationStart
              = s.ulButtonOperationStart)
      ∧ (s.uiButtonOperationMode = ACKSEN_BUTTON_MODE_ACCELERATE →
          (refreshStatus w s true now).2.ulRepeatPressesPeriodEnd
              = (now + s.ulRepeatInitialOffsetDelay_MS) % 2 ^ w
            ∧ (refreshStatus w s true now).2.ulButtonOperationStart = now)
      ∧ (s.uiButtonOperationMode = ACKSEN_BUTTON_MODE_NORMAL
            ∨ s.uiButtonOperationMode = ACKSEN_BUTTON_MODE_LONGPRESS →
          (refreshStatus w s true now).2.ulRepeatPressesPeriodEnd
              = s.ulRepeatPressesPeriodEnd
            ∧ (refreshStatus w s true now).2.ulButtonOperationStart
              = s.ulButtonOperationStart) := by
  have hne : true ≠ s.bDebouncedButtonState := by simp [hrel]
  have ht := refreshStatus_accept_timers w s true now hne hD
  have hacc := refreshStatus_accepts w s true now hne hD
  refine ⟨hacc.2.1, ?_, ?_, ?_⟩
  · intro hm; rw [ht.1, ht.2]; simp [hm]
  · intro hm; rw [ht.1, ht.2]; simp [hm]
  · intro hm; rw [ht.1, ht.2]; rcases hm with hm | hm <;> simp [hm]

/-- C21 witness: a press accepted at time 60 with repeat initial offset 1500,
in Repeat mode (hold-start stays 0) and in Accelerate mode (hold-start 60). -/
theorem C21_press_seeds_timers_witness :
    ((refreshStatus 32 sampleRepeatButton true 60).2.ulRepeatPressesPeriodEnd = 1560
        ∧ (refreshStatus 32 sampleRepeatButton true 60).2.ulButtonOperationStart = 0)
      ∧ ((refreshStatus 32 (setButtonOperatingMode sampleButton 3) true 60).2.ulRepeatPressesPeriodEnd
          = 1560
        ∧ (refreshStatus 32 (setButtonOperatingMode sampleButton 3) true 60).2.ulButtonOperationStart
          = 60) :=
  ⟨(C21_press_seeds_timers 32 sampleRepeatButton 60 (by decide) (by decide)).2.1 (by decide),
   (C21_press_seeds_timers 32 (setButtonOperatingMode sampleButton 3) 60
      (by decide) (by decide)).2.2.1 (by decide)⟩

/-- C22, as the code has it: the seeding of the repeat timers does not look at
the new level.  When `refreshStatus` accepts a pressed-to-released transition at
time `now`, both timestamps are unchanged in Normal and LongPress modes; in
Repeat mode repeat-period-end becomes `(now + repeat initial offset) mod 2^w`
and hold-start is unchanged; in Accelerate mode repeat-period-end becomes the
same value and hold-start becomes `now`. -/
theorem C22_release_seeds_timers (w : Nat) (s : AcksenButton) (now : Nat)
    (hpressed : s.bDebouncedButtonState = true)
    (hD : s.ulDebounceInterval_MS ≤ wsub w now s.ulLastStatusUpdate_MS) :
    (refreshStatus w s false now).2.bDebouncedButtonState = false
      ∧ (s.uiButtonOperationMode = ACKSEN_BUTTON_MODE_NORMAL
            ∨ s.uiButtonOperationMode = ACKSEN_BUTTON_MODE_LONGPRESS →
          (refreshStatus w s false now).2.ulRepeatPressesPeriodEnd
              = s.ulRepeatPressesPeriodEnd
            ∧ (refreshStatus w s false now).2.ulButtonOperationStart
              = s.ulButtonOperationStart)
      ∧ (s.uiButtonOperationMode = ACKSEN_BUTTON_MODE_REPEAT →
          (refreshStatus w s false now).2.ulRepeatPressesPeriodEnd
              = (now + s.ulRepeatInitialOffsetDelay_MS) % 2 ^ w
            ∧ (refreshStatus w s false now).2.ulButtonOperationStart
              = s.ulButtonOperationStart)
      ∧ (s.uiButtonOperationMode = ACKSEN_BUTTON_MODE_ACCELERATE →
          (refreshStatus w s false now).2.ulRepeatPressesPeriodEnd
              = (now + s.ulRepeatInitialOffsetDelay_MS) % 2 ^ w
            ∧ (refreshStatus w s false now).2.ulButtonOperationStart = now) := by
  have hne : false ≠ s.bDebouncedButtonState := by simp [hpressed]
  have ht := refreshStatus_accept_timers w s false now hne hD
  have hacc := refreshStatus_accepts w s false now hne hD
  refine ⟨hacc.2.1, ?_, ?_, ?_⟩
  · intro hm; rw [ht.1, ht.2]; rcases hm with hm | hm <;> simp [hm]
  · intro hm; rw [ht.1, ht.2]; simp [hm]
  · intro hm; rw [ht.1, ht.2]; simp [hm]

/-- C22 counterexample: Repeat mode, press accepted at time 60 (repeat-period-end
1560); the refresh at time 200 accepts the release, the new debounced level is
the released level, and repeat-period-end is rewritten to 1700. -/
theorem C22_counterexample :
    (refreshStatus 32 sampleRepeatButton true 60).2.bDebouncedButtonState = true
      ∧ (refreshStatus 32 (refreshStatus 32 sampleRepeatButton true 60).2 false 200).1 = true
      ∧ (refreshStatus 32
          (refreshStatus 32 sampleRepeatButton true 60).2 false 200).2.bDebouncedButtonState
            = false
      ∧ (refreshStatus 32 sampleRepeatButton true 60).2.ulRepeatPressesPeriodEnd = 1560
      ∧ (refreshStatus 32
          (refreshStatus 32 sampleRepeatButton true 60).2 false 200).2.ulRepeatPressesPeriodEnd
            = 1700 := by
  decide

/-- C22 witness: the release of the counterexample, and a release in Normal
mode, where the timers keep their values. -/
theorem C22_release_seeds_timers_witness :
    (refreshStatus 32
        (refreshStatus 32 sampleRepeatButton true 60).2 false 200).2.ulRepeatPressesPeriodEnd
          = 1700
      ∧ (refreshStatus 32
        (refreshStatus 32 sampleButton true 60).2 false 200).2.ulRepeatPressesPeriodEnd
          = (refreshStatus 32 sampleButton true 60).2.ulRepeatPressesPeriodEnd :=
  ⟨((C22_release_seeds_timers 32 (refreshStatus 32 sampleRepeatButton true 60).2 200
      (by decide) (by decide)).2.2.1 (by decide)).1,
   ((C22_release_seeds_timers 32 (refreshStatus 32 sampleButton true 60).2 200
      (by decide) (by decide)).2.1 (by decide)).1⟩

/-- The queries on a freshly constructed object, before any `refreshStatus`:
`getButtonState` returns the level read at construction and `onLongPress`
returns false, but `onPressed` and `onReleased` return what the unassigned
member `bStateChangeRecorded` happens to hold, combined with that level. -/
theorem fresh_queries (pin mode debounce inputMode : Nat) (raw : Bool) (now : Nat)
    (junkLatch : Bool) (junkPeriodEnd junkStart : Nat) :
    (getButtonState (new pin mode debounce inputMode raw now
        junkLatch junkPeriodEnd junkStart)).1 = raw
      ∧ (onLongPress (new pin mode debounce inputMode raw now
        junkLatch junkPeriodEnd junkStart)).1 = false
      ∧ (onPressed (new pin mode debounce inputMode raw now
        junkLatch junkPeriodEnd junkStart)).1 = (junkLatch && raw)
      ∧ (onReleased (new pin mode debounce inputMode raw now
        junkLatch junkPeriodEnd junkStart)).1 = (junkLatch && !raw) := by
  refine ⟨rfl, ?_, ?_, ?_⟩
  · by_cases hm : mode = ACKSEN_BUTTON_MODE_LONGPRESS <;>
    simp [onLongPress, new, setDebounceInterval, hm]
  · cases junkLatch <;> cases raw <;> simp [onPressed, new, setDebounceInterval]
  · cases junkLatch <;> cases raw <;> simp [onReleased, new, setDebounceInterval]

/-- C23, the code at the failing input: the constructor assigns nothing to
`bStateChangeRecorded`.  On an object whose storage held a nonzero value there,
`onPressed` returns true right after construction when the pin read high, and
`onReleased` returns true when it read low, with no `refreshStatus` call and no
edge. -/
theorem C23_fresh_latch_unassigned :
    (onPressed (new 2 ACKSEN_BUTTON_MODE_NORMAL 50 0 true 0 true 0 0)).1 = true
      ∧ (onReleased (new 2 ACKSEN_BUTTON_MODE_NORMAL 50 0 false 0 true 0 0)).1 = true := by
  decide

end AcksenButton
